import Mathlib

/-!
Shallow embedding of the SME contract-analysis engine
(`backend/analysis.py`, `backend/clause_templates.py`, `backend/nlp_utils.py`,
`backend/llm_client.py`) and proofs about the claims of its specification.

Python strings are modelled as Lean `String` (a list of characters);
Python floats in the composite-score code are modelled exactly as IEEE-754
binary64 values (dyadic rationals with a 53-bit significand and correctly
rounded operations); the template-similarity scores, whose float roundings
are not observable at the published 2-decimal precision, are modelled over
`ℚ`; Python `int()` truncation of a non-negative value is the floor.
The external translator collaborator and the wall clock read by the audit
log are passed as explicit parameters.
-/

set_option maxHeartbeats 1000000
set_option maxRecDepth 20000

namespace SME

/-! ## Basic string utilities (Python semantics on ASCII text) -/

/-- Characters that Python `str.strip()` / regex `\s` treat as whitespace
(ASCII portion). -/
def isPySpace (c : Char) : Bool :=
  c = ' ' || c = '\t' || c = '\n' || c = '\r' || c = '\x0b' || c = '\x0c'

/-- Python `str.lower()` (ASCII portion), as used on contract text. -/
def strLower (s : String) : String := ⟨s.toList.map Char.toLower⟩

/-- Python `str.strip()`. -/
def pyStripList (l : List Char) : List Char :=
  ((l.dropWhile isPySpace).reverse.dropWhile isPySpace).reverse

def pyStrip (s : String) : String := ⟨pyStripList s.toList⟩

/-- Python `str.rstrip()`. -/
def pyRstrip (s : String) : String := ⟨(s.toList.reverse.dropWhile isPySpace).reverse⟩

/-- Does the list start with the given pattern (`List.take`-style prefix test). -/
def startsWithChars : List Char → List Char → Bool
  | _, [] => true
  | [], _ :: _ => false
  | c :: cs, d :: ds => c = d && startsWithChars cs ds

/-- Python substring test `pat in s`. -/
def hasSubstr : List Char → List Char → Bool
  | s, pat =>
    if startsWithChars s pat then true
    else match s with
      | [] => false
      | _ :: t => hasSubstr t pat

/-- Python `needle in hay` on strings. -/
def strContains (hay needle : String) : Bool := hasSubstr hay.toList needle.toList

/-- Python `str.splitlines()` (ASCII line boundaries `\n`, `\r`, `\r\n`,
`\x0b`, `\x0c`). -/
def pySplitlinesAux : List Char → List Char → List String
  | [], acc => if acc.isEmpty then [] else [⟨acc.reverse⟩]
  | '\r' :: '\n' :: rest, acc => ⟨acc.reverse⟩ :: pySplitlinesAux rest []
  | c :: rest, acc =>
    if c = '\n' || c = '\r' || c = '\x0b' || c = '\x0c' then
      ⟨acc.reverse⟩ :: pySplitlinesAux rest []
    else
      pySplitlinesAux rest (c :: acc)

def pySplitlines (s : String) : List String := pySplitlinesAux s.toList []

/-- Python `str.split()` with no argument: split on whitespace runs,
dropping empty fields. -/
def pySplitWsAux : List Char → List Char → List String
  | [], cur => if cur.isEmpty then [] else [⟨cur.reverse⟩]
  | c :: rest, cur =>
    if isPySpace c then
      if cur.isEmpty then pySplitWsAux rest []
      else ⟨cur.reverse⟩ :: pySplitWsAux rest []
    else
      pySplitWsAux rest (c :: cur)

def pySplitWs (s : String) : List String := pySplitWsAux s.toList []

/-- Apostrophe character, used inside embedded output strings. -/
def apos : String := String.singleton (Char.ofNat 39)

/-! ## Risk levels

The source keeps risk levels as the strings "LOW"/"MEDIUM"/"HIGH" and
compares them through their index in the ordered list
`["LOW", "MEDIUM", "HIGH"]`; we embed them as an ordinal enumeration. -/

inductive RiskLevel where
  | LOW
  | MEDIUM
  | HIGH
deriving DecidableEq, Repr

/-- Position in the source's ordered list `["LOW", "MEDIUM", "HIGH"]`. -/
def RiskLevel.idx : RiskLevel → Nat
  | .LOW => 0
  | .MEDIUM => 1
  | .HIGH => 2

/-- Python `max(a, b, key=["LOW", "MEDIUM", "HIGH"].index)`: the argument
with the larger index, the first argument on ties. -/
def rmax (a b : RiskLevel) : RiskLevel := if a.idx < b.idx then b else a

/-! ## Clause risk classifier (`analysis.py`, `clause_risk_level`, lines 210-279)

Each `step` function below transcribes one `if` block of the source, in
source order, acting on the running `(risk, flags)` state.  The trigger
conditions are shared, named predicates on the lower-cased clause text. -/

def condLockIn (lower : String) : Bool :=
  strContains lower "lock-in" || strContains lower "lock in" ||
    strContains lower "non-cancellable"

def condAutoRenew (lower : String) : Bool :=
  strContains lower "auto-renew" || strContains lower "automatically renew"

def condIndemnity (lower : String) : Bool :=
  strContains lower "indemnify" || strContains lower "indemnity"

def condIndemnityUnlimited (lower : String) : Bool :=
  strContains lower "unlimited" || strContains lower "all claims"

def condUnlimitedLiability (lower : String) : Bool :=
  strContains lower "unlimited liability" || strContains lower "without any limitation"

def condLimitationOfLiability (lower : String) : Bool :=
  strContains lower "limitation of liability" || strContains lower "liability shall be limited"

/-- Python condition `A or B and C` parses as `A or (B and C)`. -/
def condIpAssignment (lower : String) : Bool :=
  strContains lower "assign all intellectual property" ||
    (strContains lower "hereby assigns" && strContains lower "intellectual property")

/-- Python condition `A or B or C and D` parses as `A or B or (C and D)`. -/
def condNonCompete (lower : String) : Bool :=
  strContains lower "non-compete" || strContains lower "non compete" ||
    (strContains lower "exclusive" && strContains lower "territory")

def condPenalty (lower : String) : Bool :=
  strContains lower "penalty" || strContains lower "liquidated damages" ||
    strContains lower "fine"

def condLateInterest (lower : String) : Bool :=
  strContains lower "interest" && strContains lower "late payment"

def condUnilateralTermination (lower : String) : Bool :=
  strContains lower "may terminate" && !(strContains lower "other party may not")

def condConfidentiality (lower : String) : Bool :=
  strContains lower "confidential" || strContains lower "non-disclosure"

def condArbitration (lower : String) : Bool :=
  strContains lower "arbitration" || strContains lower "arbitral" ||
    strContains lower "arbitrator"

def stepLockIn (lower : String) (st : RiskLevel × List String) : RiskLevel × List String :=
  if condLockIn lower then (.HIGH, st.2 ++ ["lock_in_or_non_cancellable"]) else st

def stepAutoRenew (lower : String) (st : RiskLevel × List String) : RiskLevel × List String :=
  if condAutoRenew lower then (rmax st.1 .MEDIUM, st.2 ++ ["auto_renewal"]) else st

def stepIndemnity (lower : String) (st : RiskLevel × List String) : RiskLevel × List String :=
  if condIndemnity lower then
    ((if condIndemnityUnlimited lower then .HIGH else rmax st.1 .MEDIUM),
      st.2 ++ ["indemnity"])
  else st

def stepUnlimitedLiability (lower : String) (st : RiskLevel × List String) :
    RiskLevel × List String :=
  if condUnlimitedLiability lower then (.HIGH, st.2 ++ ["unlimited_liability"]) else st

def stepLimitationOfLiability (lower : String) (st : RiskLevel × List String) :
    RiskLevel × List String :=
  if condLimitationOfLiability lower then (st.1, st.2 ++ ["limitation_of_liability"]) else st

def stepIpAssignment (lower : String) (st : RiskLevel × List String) :
    RiskLevel × List String :=
  if condIpAssignment lower then (rmax st.1 .MEDIUM, st.2 ++ ["ip_assignment"]) else st

def stepNonCompete (lower : String) (st : RiskLevel × List String) :
    RiskLevel × List String :=
  if condNonCompete lower then (rmax st.1 .MEDIUM, st.2 ++ ["non_compete_or_exclusivity"])
  else st

def stepPenalty (lower : String) (st : RiskLevel × List String) : RiskLevel × List String :=
  if condPenalty lower then (rmax st.1 .MEDIUM, st.2 ++ ["penalties_or_liquidated_damages"])
  else st

def stepLateInterest (lower : String) (st : RiskLevel × List String) :
    RiskLevel × List String :=
  if condLateInterest lower then (st.1, st.2 ++ ["late_payment_interest"]) else st

def stepUnilateralTermination (lower : String) (st : RiskLevel × List String) :
    RiskLevel × List String :=
  if condUnilateralTermination lower then (rmax st.1 .MEDIUM, st.2 ++ ["unilateral_termination"])
  else st

def stepConfidentiality (lower : String) (st : RiskLevel × List String) :
    RiskLevel × List String :=
  if condConfidentiality lower then (st.1, st.2 ++ ["confidentiality"]) else st

def stepArbitration (lower : String) (st : RiskLevel × List String) :
    RiskLevel × List String :=
  if condArbitration lower then (rmax st.1 .MEDIUM, st.2 ++ ["arbitration_and_jurisdiction"])
  else st

/-- Final heuristic bump of the source: `if intent in ["PROHIBITION"] and
risk == "LOW": risk = "MEDIUM"`. -/
def prohibitionBump (intent : String) (st : RiskLevel × List String) :
    RiskLevel × List String :=
  if (["PROHIBITION"].contains intent) && st.1 == RiskLevel.LOW then (.MEDIUM, st.2) else st

/-- `clause_risk_level(text, intent)` of `analysis.py`: lower-case the clause
text, run the trigger rules in source order starting from `("LOW", [])`,
then apply the prohibition bump. -/
def clause_risk_level (text intent : String) : RiskLevel × List String :=
  let lower := strLower text
  prohibitionBump intent
    (stepArbitration lower
      (stepConfidentiality lower
        (stepUnilateralTermination lower
          (stepLateInterest lower
            (stepPenalty lower
              (stepNonCompete lower
                (stepIpAssignment lower
                  (stepLimitationOfLiability lower
                    (stepUnlimitedLiability lower
                      (stepIndemnity lower
                        (stepAutoRenew lower
                          (stepLockIn lower (RiskLevel.LOW, [])))))))))))))

/-! ## Rule-list presentation of the classifier

Each trigger rule of `clause_risk_level` escalates by
`new = rmax current target` and appends its flag.  A direct assignment
`risk = "HIGH"` in the source coincides with `rmax current HIGH` because
`HIGH` is the top of the ordinal. -/

structure RiskRule where
  cond : String → Bool
  target : String → RiskLevel
  flag : String

/-- The twelve trigger rules of `clause_risk_level`, in source order. -/
def riskRules : List RiskRule :=
  [ ⟨condLockIn, fun _ => .HIGH, "lock_in_or_non_cancellable"⟩,
    ⟨condAutoRenew, fun _ => .MEDIUM, "auto_renewal"⟩,
    ⟨condIndemnity, fun lower => if condIndemnityUnlimited lower then .HIGH else .MEDIUM,
      "indemnity"⟩,
    ⟨condUnlimitedLiability, fun _ => .HIGH, "unlimited_liability"⟩,
    ⟨condLimitationOfLiability, fun _ => .LOW, "limitation_of_liability"⟩,
    ⟨condIpAssignment, fun _ => .MEDIUM, "ip_assignment"⟩,
    ⟨condNonCompete, fun _ => .MEDIUM, "non_compete_or_exclusivity"⟩,
    ⟨condPenalty, fun _ => .MEDIUM, "penalties_or_liquidated_damages"⟩,
    ⟨condLateInterest, fun _ => .LOW, "late_payment_interest"⟩,
    ⟨condUnilateralTermination, fun _ => .MEDIUM, "unilateral_termination"⟩,
    ⟨condConfidentiality, fun _ => .LOW, "confidentiality"⟩,
    ⟨condArbitration, fun _ => .MEDIUM, "arbitration_and_jurisdiction"⟩ ]

/-- One rule application: when the trigger fires, raise the level with
`rmax` and append the flag. -/
def applyRule (lower : String) (st : RiskLevel × List String) (r : RiskRule) :
    RiskLevel × List String :=
  if r.cond lower then (rmax st.1 (r.target lower), st.2 ++ [r.flag]) else st

/-- Evaluate the classifier with an arbitrary rule list (used to express
order-independence of the final level). -/
def evalRiskRules (rules : List RiskRule) (text intent : String) :
    RiskLevel × List String :=
  prohibitionBump intent (rules.foldl (applyRule (strLower text)) (RiskLevel.LOW, []))

/-! ## Order-independence of the final risk level (C2) -/

/-- Levels of the rules that fire on the given lower-cased text, in rule
order. -/
def firedTargets (lower : String) (rules : List RiskRule) : List RiskLevel :=
  rules.filterMap (fun r => if r.cond lower then some (r.target lower) else none)

/-! ## Structural parser (`analysis.py`, `split_into_clauses`, lines 54-106)

The two heading regexes are embedded as explicit prefix matchers:
`top_level = ^(\d+)[\)\.]?\s+|^(i+|v+|x+)[\)\.]?\s+|^[A-Z][A-Z0-9\s\-,]{4,}$`
and `sub_level = ^(\d+\.\d+(?:\.\d+)*)[\)\.]?\s+`. -/

/-- Matches the regex fragment `[\)\.]?\s+` at the start of the list:
either an optional `)` or `.` followed by whitespace, or whitespace
directly (the only backtracking the optional group can need). -/
def punctThenWs : List Char → Bool
  | [] => false
  | c :: rest =>
    if c = ')' || c = '.' then
      match rest with
      | [] => false
      | d :: _ => isPySpace d
    else isPySpace c

/-- First alternative `^(\d+)[\)\.]?\s+`. -/
def topNumMatch (l : List Char) : Bool :=
  let ds := l.takeWhile Char.isDigit
  !ds.isEmpty && punctThenWs (l.drop ds.length)

/-- Second alternative `^(i+|v+|x+)[\)\.]?\s+`: a run of one repeated
lower-case roman letter (the pattern has no IGNORECASE flag). -/
def topRomanMatch (l : List Char) : Bool :=
  match l with
  | [] => false
  | c :: _ =>
    if c = 'i' || c = 'v' || c = 'x' then
      punctThenWs (l.drop (l.takeWhile (· = c)).length)
    else false

def isUpperAZ (c : Char) : Bool := 'A' ≤ c && c ≤ 'Z'

/-- Character class `[A-Z0-9\s\-,]`. -/
def capsBodyChar (c : Char) : Bool :=
  isUpperAZ c || c.isDigit || isPySpace c || c = '-' || c = ','

/-- Third alternative `^[A-Z][A-Z0-9\s\-,]{4,}$` (the line contains no
newline, so `$` is the end of the line). -/
def topCapsMatch (l : List Char) : Bool :=
  match l with
  | [] => false
  | c :: rest => isUpperAZ c && rest.length ≥ 4 && rest.all capsBodyChar

def topLevelMatch (s : String) : Bool :=
  topNumMatch s.toList || topRomanMatch s.toList || topCapsMatch s.toList

/-- Consumes the greedy `(?:\.\d+)*` loop (giving an iteration back can
never help, since the following optional-punct-plus-whitespace cannot
start with the digit that made the iteration possible). -/
def consumeDotDigits : Nat → List Char → List Char
  | 0, l => l
  | fuel + 1, l =>
    match l with
    | '.' :: c :: rest =>
      if c.isDigit then consumeDotDigits fuel (rest.dropWhile Char.isDigit)
      else l
    | _ => l

/-- Sub-level pattern `^(\d+\.\d+(?:\.\d+)*)[\)\.]?\s+`. -/
def subLevelMatch (s : String) : Bool :=
  let l := s.toList
  let ds := l.takeWhile Char.isDigit
  !ds.isEmpty &&
    match l.drop ds.length with
    | '.' :: c :: rest =>
      if c.isDigit then
        punctThenWs (consumeDotDigits l.length (rest.dropWhile Char.isDigit))
      else false
    | _ => false

structure SubClause where
  heading : String
  body : String
deriving DecidableEq, Repr

/-- A flushed clause before numbering. -/
structure RawClause where
  heading : String
  body : String
  sub_clauses : List SubClause
deriving DecidableEq, Repr

/-- A clause of the structured output. -/
structure Clause where
  clause_number : Nat
  heading : String
  body : String
  sub_clauses : List SubClause
deriving DecidableEq, Repr

/-- Parser state: flushed clauses, the open clause (heading, body), and its
open sub-clauses. -/
structure SplitState where
  clauses : List RawClause
  current : Option (String × String)
  current_subs : List SubClause

/-- `flush_current()` of the source. -/
def flushCurrent (st : SplitState) : SplitState :=
  match st.current with
  | some c => ⟨st.clauses ++ [⟨c.1, c.2, st.current_subs⟩], none, []⟩
  | none => ⟨st.clauses, none, []⟩

/-- Newline-joined body accumulation
(`body += ("\n" if body else "") + stripped`). -/
def joinBody (body line : String) : String :=
  body ++ (if body = "" then "" else "\n") ++ line

/-- Appends a body line to the last open sub-clause. -/
def updateLastSub (subs : List SubClause) (line : String) : List SubClause :=
  match subs with
  | [] => []
  | [s] => [⟨s.heading, joinBody s.body line⟩]
  | s :: rest => s :: updateLastSub rest line

/-- One iteration of the line loop of `split_into_clauses`. -/
def processLine (st : SplitState) (line : String) : SplitState :=
  if pyStrip line = "" then st
  else
    let stripped := pyStrip line
    if subLevelMatch stripped && st.current.isSome then
      { st with current_subs := st.current_subs ++ [⟨stripped, ""⟩] }
    else if topLevelMatch stripped then
      let st' := flushCurrent st
      { st' with current := some (stripped, ""), current_subs := [] }
    else
      match st.current with
      | none => { st with current := some ("Preamble", stripped), current_subs := [] }
      | some c =>
        if st.current_subs.isEmpty then
          { st with current := some (c.1, joinBody c.2 stripped) }
        else
          { st with current_subs := updateLastSub st.current_subs stripped }

/-- Final numbering pass (`enumerate(clauses, start=1)`). -/
def assignNumbers : Nat → List RawClause → List Clause
  | _, [] => []
  | n, c :: rest => ⟨n, c.heading, c.body, c.sub_clauses⟩ :: assignNumbers (n + 1) rest

/-- `split_into_clauses(text)` of `analysis.py`: rstrip the lines, run the
line loop, flush the open clause, then number the flushed clauses. -/
def split_into_clauses (text : String) : List Clause :=
  assignNumbers 1
    (flushCurrent (((pySplitlines text).map pyRstrip).foldl processLine ⟨[], none, []⟩)).clauses

/-! ## Clause intent classifier (`analysis.py`, lines 185-207) -/

def classify_clause_intent (text : String) : String :=
  let lower := strLower text
  if strContains lower "shall not" || strContains lower "must not" ||
      strContains lower "prohibited" || strContains lower "no party shall" then "PROHIBITION"
  else if strContains lower "shall" || strContains lower "must" ||
      strContains lower "agrees to" || strContains lower "undertakes to" then "OBLIGATION"
  else if strContains lower "may" || strContains lower "entitled to" ||
      strContains lower "reserves the right" then "RIGHT"
  else if strContains lower "subject to" || strContains lower "provided that" ||
      strContains lower "if " || strContains lower "in the event that" then "CONDITIONAL"
  else "INFORMATIONAL"

def business_impact (intent : String) (_text : String) : String :=
  if intent = "OBLIGATION" then
    "Specifies something a party is required to do; missing this may lead to breach."
  else if intent = "RIGHT" then
    "Gives a party a choice or benefit they can exercise."
  else if intent = "PROHIBITION" then
    "Restricts or stops a party from doing something; breach can trigger penalties or termination."
  else if intent = "CONDITIONAL" then
    "Describes what happens only if certain conditions or events occur."
  else
    "Explains background, definitions, or general information without direct action."

/-- Per-clause text handed to the classifiers by `analyze_contract`:
`(heading + "\n" + body).strip()`. -/
def clauseFullText (heading body : String) : String :=
  pyStrip (heading ++ "\n" ++ body)

/-! ## Parser invariants (C5) -/

/-- All clauses after the first were opened by a line matching the
top-level heading pattern. -/
def headingsOk (l : List RawClause) : Prop :=
  ∀ c ∈ l.drop 1, topLevelMatch c.heading = true

/-- Invariant maintained by the parser loop: a missing current clause means
nothing has been flushed yet; every flushed clause after the first, and the
current clause once something has been flushed, has a heading matched by
the top-level pattern. -/
def StInv (st : SplitState) : Prop :=
  (st.current = none → st.clauses = []) ∧
  headingsOk st.clauses ∧
  (∀ c, st.clauses ≠ [] → st.current = some c → topLevelMatch c.1 = true)

/-! ## Concrete two-clause scenario (C3) -/

def c3Input : String :=
  "1. Payment Terms\nThe Client shall pay within 30 days.\n2. Termination\nEither party may terminate this Agreement upon 30 days written notice. This is a lock-in period with no early exit."

def c3Body2 : String :=
  "Either party may terminate this Agreement upon 30 days written notice. This is a lock-in period with no early exit."

/-! ## Composite risk score (`analysis.py`, `contract_level_risk_score`,
lines 338-349, and the interpretation bands of `analyze_contract`,
lines 454-459)

The score pipeline `int(min(100, max(0, (total / n / 6.0) * 100)))` runs in
CPython's IEEE-754 binary64 arithmetic, and the float roundings are
observable in the result (9 MEDIUM + 1 HIGH clauses score 54 where exact
rational arithmetic would give 55), so the floats are modelled exactly: a
non-negative double is a dyadic rational `m * 2^e`, and each of the three
operations (int/int true division, float/6.0, float*100) is the correctly
rounded (round-to-nearest, ties-to-even, 53-bit significand) value of the
exact result, which is CPython's semantics for these operations.  All
intermediate values lie in [1/6, 100] for non-empty input, so neither
overflow nor subnormals can occur and the normal-range model is exact.
`weights.get(r, 1)` never takes its default, as the ordinal type has
exactly the three keys of the weight dict; Python integers (`total`, `n`)
are exact. -/

/-- Weight map of the source (`{"LOW": 1, "MEDIUM": 3, "HIGH": 6}`,
Python ints). -/
def riskWeightN : RiskLevel → ℕ
  | .LOW => 1
  | .MEDIUM => 3
  | .HIGH => 6

/-- A non-negative binary64 value `m * 2^e` (for normalized results
`2^52 ≤ m < 2^53`; zero is `⟨0, 0⟩`). -/
structure Fl where
  m : ℕ
  e : ℤ
deriving DecidableEq, Repr

def Fl.toRat (x : Fl) : ℚ := (x.m : ℚ) * (2 : ℚ) ^ x.e

/-- Binary logarithm, fuel-based so that the kernel can evaluate it on
numerals (`log2F fuel n = ⌊log2 n⌋` whenever `n ≤ fuel` and `1 ≤ n`). -/
def log2F : ℕ → ℕ → ℕ
  | 0, _ => 0
  | fuel + 1, n => if 2 ≤ n then log2F fuel (n / 2) + 1 else 0

def nlog2 (n : ℕ) : ℕ := log2F n n

/-- Integer test `b * 2^z ≤ a` for a signed exponent `z`. -/
def pow2Le (b : ℕ) (z : ℤ) (a : ℕ) : Bool :=
  if 0 ≤ z then b * 2 ^ z.toNat ≤ a else b ≤ a * 2 ^ (-z).toNat

/-- Round-to-nearest, ties-to-even integer quotient `N / D`. -/
def rneDiv (N D : ℕ) : ℕ :=
  if 2 * (N % D) < D then N / D
  else if D < 2 * (N % D) then N / D + 1
  else if (N / D) % 2 = 0 then N / D else N / D + 1

/-- Exponent of the correctly rounded quotient `a / b` (value in
`[2^52 * 2^e, 2^53 * 2^e)`): `⌊log2 (a/b)⌋` is `log2 a - log2 b` when
`2^(log2 a - log2 b) ≤ a/b` and one less otherwise. -/
def fDivExp (a b : ℕ) : ℤ :=
  if pow2Le b ((nlog2 a : ℤ) - (nlog2 b : ℤ)) a then
    (nlog2 a : ℤ) - (nlog2 b : ℤ) - 52
  else (nlog2 a : ℤ) - (nlog2 b : ℤ) - 53

/-- The 53-bit significand of `a / b` at exponent `e`: the rounded value of
`a / (b * 2^e)`. -/
def fDivMant (a b : ℕ) (e : ℤ) : ℕ :=
  rneDiv (if 0 ≤ e then a else a * 2 ^ (-e).toNat) (if 0 ≤ e then b * 2 ^ e.toNat else b)

/-- Carry a significand that rounded up to `2^53` into the next binade. -/
def fNorm (m : ℕ) (e : ℤ) : Fl := if m = 2 ^ 53 then ⟨2 ^ 52, e + 1⟩ else ⟨m, e⟩

/-- Correctly rounded binary64 quotient of two Python integers
(CPython `int.__truediv__`). -/
def fDivNat (a b : ℕ) : Fl :=
  if a = 0 then ⟨0, 0⟩ else fNorm (fDivMant a b (fDivExp a b)) (fDivExp a b)

/-- Correctly rounded binary64 quotient `x / d` for an exactly
representable small integer divisor `d` (here 6.0): scaling by `2^(x.e)` is
exact and commutes with rounding, so the significand is rounded as in
`fDivNat` and the exponents add. -/
def fDiv (x : Fl) (d : ℕ) : Fl :=
  ⟨(fDivNat x.m d).m, (fDivNat x.m d).e + x.e⟩

/-- Correctly rounded binary64 product `x * k` for an exactly representable
small integer factor `k` (here 100): the exact integer `x.m * k` is rounded
to 53 significant bits. -/
def fMulNat (x : Fl) (k : ℕ) : Fl :=
  if nlog2 (x.m * k) ≤ 52 then ⟨x.m * k, x.e⟩
  else
    fNorm (rneDiv (x.m * k) (2 ^ (nlog2 (x.m * k) - 52)))
      (x.e + (nlog2 (x.m * k) - 52))

/-- Exact float-to-integer comparison `x <= k` (Python compares floats and
ints exactly). -/
def flLeNat (x : Fl) (k : ℕ) : Bool :=
  if 0 ≤ x.e then x.m * 2 ^ x.e.toNat ≤ k else x.m ≤ k * 2 ^ (-x.e).toNat

/-- `int(x)` for a non-negative float: truncation toward zero, i.e. the
floor. -/
def flFloor (x : Fl) : ℕ :=
  if 0 ≤ x.e then x.m * 2 ^ x.e.toNat else x.m / 2 ^ (-x.e).toNat

/-- The float value `(total / len(clause_risks) / 6.0) * 100` of the score
pipeline. -/
def scoreFloat (clause_risks : List RiskLevel) : Fl :=
  fMulNat (fDiv (fDivNat ((clause_risks.map riskWeightN).sum) clause_risks.length) 6) 100

/-- `contract_level_risk_score(clause_risks)` of `analysis.py`:
`int(min(100, max(0, scoreFloat)))`.  The float is non-negative, so
`max(0, _)` returns it unchanged; `min(100, _)` yields 100 when the float
exceeds 100 and otherwise the float, which `int()` truncates (= floors). -/
def contract_level_risk_score (clause_risks : List RiskLevel) : ℤ :=
  if clause_risks.isEmpty then 0
  else if flLeNat (scoreFloat clause_risks) 100 then (flFloor (scoreFloat clause_risks) : ℤ)
  else 100

/-- Interpretation bands applied to the composite score in
`analyze_contract`. -/
def risk_interpretation (score : ℤ) : String :=
  if score ≤ 30 then "Safe"
  else if score ≤ 60 then "Needs review"
  else "High risk"

/-! ## Template similarity matcher (`clause_templates.py`)

`_normalize_for_similarity` lower-cases, replaces every character outside
regex `[\w\s]` by a space and collapses whitespace; keyword matching is the
Python substring test `k in combined`.  The float literals `0.2` and `1.0`
and `round(_, 2)` are modelled over ℚ (all reachable scores are k/3, k/4 or
k/5, where the float and rational comparisons and roundings agree). -/

structure ClauseTemplate where
  id : String
  heading : String
  keywords : String

def STANDARD_CLAUSE_TEMPLATES : List ClauseTemplate :=
  [ ⟨"term_notice", "Term and termination with notice", "term, terminate, notice, days, renewal"⟩,
    ⟨"limitation_liability", "Limitation of liability", "liability, limited, cap, exclude, indirect"⟩,
    ⟨"confidentiality", "Confidentiality", "confidential, disclose, non-disclosure, information"⟩,
    ⟨"ip_rights", "Intellectual property", "intellectual property, assign, license, copyright"⟩,
    ⟨"indemnity", "Indemnity", "indemnify, indemnity, hold harmless, claims"⟩,
    ⟨"payment", "Payment terms", "payment, fee, invoice, due, days"⟩,
    ⟨"governing_law", "Governing law and jurisdiction", "governing law, jurisdiction, courts, dispute"⟩,
    ⟨"arbitration", "Arbitration", "arbitration, arbitrator, arbitral"⟩,
    ⟨"scope_services", "Scope of services / deliverables", "scope, services, deliverables, perform"⟩,
    ⟨"warranty", "Warranty", "warranty, represent, warrant"⟩ ]

/-- Regex `\w` (ASCII portion): letters, digits, underscore. -/
def isWordChar (c : Char) : Bool := c.isAlphanum || c = '_'

/-- `_normalize_for_similarity` of `clause_templates.py`. -/
def _normalize_for_similarity (s : String) : String :=
  String.intercalate " "
    (pySplitWs ⟨(strLower s).toList.map (fun c => if !(isWordChar c || isPySpace c) then ' ' else c)⟩)

structure TemplateMatch where
  template_id : String
  template_heading : String
  match_score : ℚ
  matched_keywords : List String
deriving DecidableEq, Repr

/-- Python `round(q, 2)` for the reachable score values (no exact halves
arise, so half-up rounding agrees with the float behaviour). -/
def round2 (q : ℚ) : ℚ := ((round (q * 100) : ℤ) : ℚ) / 100

def combinedNormalized (clause_heading clause_body : String) : String :=
  _normalize_for_similarity (clause_heading ++ " " ++ clause_body)

def templateKeywords (t : ClauseTemplate) : List String :=
  pySplitWs (_normalize_for_similarity t.keywords)

/-- `matched = [k for k in keywords if k in combined]`: the Python `in` is
the substring test. -/
def matchedKeywords (combined : String) (t : ClauseTemplate) : List String :=
  (templateKeywords t).filter (fun k => strContains combined k)

/-- `score = len(matched) / max(len(keywords), 1)`. -/
def rawScore (combined : String) (t : ClauseTemplate) : ℚ :=
  ((matchedKeywords combined t).length : ℚ) / ((max (templateKeywords t).length 1 : ℕ) : ℚ)

/-- The loop body of `clause_similarity_to_templates` for one template:
skip when nothing matched, keep when the score reaches 0.2. -/
def templateEntry (combined : String) (t : ClauseTemplate) : Option TemplateMatch :=
  if (matchedKeywords combined t).isEmpty then none
  else if 1/5 ≤ rawScore combined t then
    some ⟨t.id, t.heading, round2 (min 1 (rawScore combined t)),
      (matchedKeywords combined t).take 5⟩
  else none

/-- `clause_similarity_to_templates` of `clause_templates.py`: collect the
per-template entries, sort stably by descending score, return the first 5. -/
def clause_similarity_to_templates (clause_heading clause_body : String) : List TemplateMatch :=
  if combinedNormalized clause_heading clause_body = "" then []
  else
    ((STANDARD_CLAUSE_TEMPLATES.filterMap
        (templateEntry (combinedNormalized clause_heading clause_body))).mergeSort
      (fun a b => decide (b.match_score ≤ a.match_score))).take 5

/-- Follows the specification words, for the refinement comparison: the
spec describes `matched` as `keywords ∩ words-present-in-clause`, i.e.
keyword membership among the words of the normalized clause text instead
of the substring test of the source. -/
def templateEntryWords (combined : String) (t : ClauseTemplate) : Option TemplateMatch :=
  if ((templateKeywords t).filter (fun k => (pySplitWs combined).contains k)).isEmpty then none
  else if 1/5 ≤ (((templateKeywords t).filter (fun k => (pySplitWs combined).contains k)).length : ℚ) /
      ((max (templateKeywords t).length 1 : ℕ) : ℚ) then
    some ⟨t.id, t.heading,
      round2 (min 1 ((((templateKeywords t).filter (fun k => (pySplitWs combined).contains k)).length : ℚ) /
        ((max (templateKeywords t).length 1 : ℕ) : ℚ))),
      ((templateKeywords t).filter (fun k => (pySplitWs combined).contains k)).take 5⟩
  else none

/-- Matcher as the specification words describe it (word membership instead
of substring containment). -/
def clause_similarity_spec_words (clause_heading clause_body : String) : List TemplateMatch :=
  if combinedNormalized clause_heading clause_body = "" then []
  else
    ((STANDARD_CLAUSE_TEMPLATES.filterMap
        (templateEntryWords (combinedNormalized clause_heading clause_body))).mergeSort
      (fun a b => decide (b.match_score ≤ a.match_score))).take 5

/-! ## Renegotiation generator (`analysis.py`,
`renegotiation_suggestion_for_clause`, lines 282-335)

Each remediation sentence is transcribed verbatim (apostrophes written via
`apos`); the suggestion accumulates the sentences of the present flags in
the fixed order of the source's `if` chain. -/

def sLockIn : String :=
  "Replace strict lock-in with the ability for either party to terminate for convenience with 30 days" ++
    apos ++ " notice and payment only for work actually done."

def sAutoRenewal : String :=
  "Change auto-renewal to renewal only with written confirmation, or allow either party to opt out by giving prior written notice (for example, 30 days before renewal)."

def sIndemnity : String :=
  "Limit indemnity to direct third-party claims caused by proven breach or gross negligence, and cap the indemnity amount to a reasonable multiple of the total fees paid."

def sUnlimitedLiability : String :=
  "Cap total liability to 6–12 months of fees paid under the agreement, except for confidentiality breach and willful misconduct."

def sIpAssignment : String :=
  "Clarify that only project-specific deliverables are assigned and the service provider keeps all tools, templates and background IP, while giving the client a license to use them as embedded in the deliverables."

def sNonCompete : String :=
  "Narrow any non-compete or exclusivity to specific customers, products or territory, and limit the duration to a reasonable period (for example, 6–12 months)."

def sPenalties : String :=
  "Replace strict penalties with reasonable, pre-agreed service credits or a capped amount, and ensure any liquidated damages reflect a genuine pre-estimate of loss."

def sUnilateralTermination : String :=
  "Allow both parties to terminate for material breach (with a cure period) and for convenience with notice, rather than only one side having this right."

def sArbitration : String :=
  "Ensure arbitration seat and governing law are in India (e.g. Indian Arbitration Act) and venue is practical for both parties; consider mutual consent for arbitrator appointment."

/-- The sequential `if ... in flags` chain of the source, collecting the
remediation sentences in source order. -/
def suggestionSentences (flags : List String) : List String :=
  (if flags.contains "lock_in_or_non_cancellable" then [sLockIn] else []) ++
  (if flags.contains "auto_renewal" then [sAutoRenewal] else []) ++
  (if flags.contains "indemnity" then [sIndemnity] else []) ++
  (if flags.contains "unlimited_liability" then [sUnlimitedLiability] else []) ++
  (if flags.contains "ip_assignment" then [sIpAssignment] else []) ++
  (if flags.contains "non_compete_or_exclusivity" then [sNonCompete] else []) ++
  (if flags.contains "penalties_or_liquidated_damages" then [sPenalties] else []) ++
  (if flags.contains "unilateral_termination" then [sUnilateralTermination] else []) ++
  (if flags.contains "arbitration_and_jurisdiction" then [sArbitration] else [])

/-- `renegotiation_suggestion_for_clause(flags, text)` of `analysis.py`
(`text` is unused by the source too). -/
def renegotiation_suggestion_for_clause (flags : List String) (_text : String) :
    Option String :=
  if flags.isEmpty then none
  else if (suggestionSentences flags).isEmpty then none
  else some (String.intercalate " " (suggestionSentences flags))

/-- The flag-to-sentence table, in the order of the source's `if` chain. -/
def flagSentenceTable : List (String × String) :=
  [ ("lock_in_or_non_cancellable", sLockIn),
    ("auto_renewal", sAutoRenewal),
    ("indemnity", sIndemnity),
    ("unlimited_liability", sUnlimitedLiability),
    ("ip_assignment", sIpAssignment),
    ("non_compete_or_exclusivity", sNonCompete),
    ("penalties_or_liquidated_damages", sPenalties),
    ("unilateral_termination", sUnilateralTermination),
    ("arbitration_and_jurisdiction", sArbitration) ]

/-! ## A small backtracking regex engine

The entity, ambiguity and termination scans of the source are regex scans
(`re.finditer` / `re.findall` / `re.search`).  They are embedded through a
small backtracking matcher over `List Char` whose result list is ordered by
the regex engine's backtracking priority (left alternative first, greedy
repetition longest-first, lazy repetition shortest-first), so that the head
of the list is the match Python's `re` reports.  Fuel bounds the recursion
depth; the scans below always supply ample fuel. -/

inductive Rx where
  | eps
  | cls (p : Char → Bool)
  | cat (a b : Rx)
  | alt (a b : Rx)
  | rep (a : Rx) (lo : Nat) (hi : Option Nat) (greedy : Bool)
  | grp (a : Rx)
  | wb

/-- All ways `r` matches a prefix of `s`, in backtracking priority order:
(remaining input, group-1 capture, last consumed character). -/
def rxMs : Nat → Rx → Option Char → List Char →
    List (List Char × Option (List Char) × Option Char)
  | 0, _, _, _ => []
  | _ + 1, .eps, prev, s => [(s, none, prev)]
  | _ + 1, .cls p, _, s =>
    match s with
    | [] => []
    | c :: t => if p c then [(t, none, some c)] else []
  | fuel + 1, .cat a b, prev, s =>
    (rxMs fuel a prev s).flatMap (fun r =>
      (rxMs fuel b r.2.2 r.1).map (fun r2 => (r2.1, r.2.1 <|> r2.2.1, r2.2.2)))
  | fuel + 1, .alt a b, prev, s => rxMs fuel a prev s ++ rxMs fuel b prev s
  | fuel + 1, .grp a, prev, s =>
    (rxMs fuel a prev s).map (fun r => (r.1, some (s.take (s.length - r.1.length)), r.2.2))
  | _ + 1, .wb, prev, s =>
    let before := match prev with | some c => isWordChar c | none => false
    let after := match s with | c :: _ => isWordChar c | [] => false
    if before != after then [(s, none, prev)] else []
  | fuel + 1, .rep a lo hi greedy, prev, s =>
    match hi with
    | some 0 => [(s, none, prev)]
    | _ =>
      let zero := [(s, none, prev)]
      let more := (rxMs fuel a prev s).flatMap (fun r =>
        (rxMs fuel (.rep a (lo - 1) (hi.map (· - 1)) greedy) r.2.2 r.1).map
          (fun r2 => (r2.1, r.2.1 <|> r2.2.1, r2.2.2)))
      if lo > 0 then more
      else if greedy then more ++ zero else zero ++ more

/-- The first (highest-priority) way `r` matches at the current position. -/
def rxMatch (r : Rx) (prev : Option Char) (s : List Char) :
    Option (List Char × Option (List Char) × Option Char) :=
  (rxMs (4 * s.length + 400) r prev s).head?

/-- `re.finditer`: non-overlapping matches scanning left to right,
advancing one character past an empty match, as the `re` module does.
Returns (matched text, group-1 capture) pairs. -/
def rxFindAux : Nat → Rx → Option Char → List Char → List (List Char × Option (List Char))
  | 0, _, _, _ => []
  | fuel + 1, r, prev, s =>
    match rxMatch r prev s with
    | some (rest, cap, pv) =>
      let matched := s.take (s.length - rest.length)
      if matched.isEmpty then
        match s with
        | [] => [(matched, cap)]
        | c :: t => (matched, cap) :: rxFindAux fuel r (some c) t
      else (matched, cap) :: rxFindAux fuel r pv rest
    | none =>
      match s with
      | [] => []
      | c :: t => rxFindAux fuel r (some c) t

def rxFinditer (r : Rx) (s : List Char) : List (List Char × Option (List Char)) :=
  rxFindAux (s.length + 1) r none s

/-- `re.search`: the leftmost match. -/
def rxSearch (r : Rx) (s : List Char) : Option (List Char × Option (List Char)) :=
  (rxFinditer r s).head?

/-- Literal character (case-sensitive). -/
def rxChar (c : Char) : Rx := .cls (fun d => d = c)

/-- Literal character under `re.IGNORECASE` (ASCII case folding). -/
def rxCharCI (c : Char) : Rx := .cls (fun d => d.toLower = c.toLower)

/-- Case-insensitive literal string. -/
def rxStrCI (s : String) : Rx := s.toList.foldr (fun c acc => .cat (rxCharCI c) acc) .eps

def rxWsPlus : Rx := .rep (.cls isPySpace) 1 none true

def rxWsStar : Rx := .rep (.cls isPySpace) 0 none true

def rxDigit : Rx := .cls Char.isDigit

def rxAlts : List Rx → Rx
  | [] => .cls (fun _ => false)
  | [r] => r
  | r :: rest => .alt r (rxAlts rest)

def rxOpt (r : Rx) : Rx := .rep r 0 (some 1) true

/-- `(.*?)` under `re.DOTALL`: lazy any-character repetition. -/
def rxAnyLazy : Rx := .rep (.cls (fun _ => true)) 0 none false

/-- `re.findall` with no capturing group: the matched substrings. -/
def findallFull (r : Rx) (text : String) : List String :=
  (rxFinditer r text.toList).map (fun m => ⟨m.1⟩)

/-- `re.findall` with exactly one capturing group: the group captures. -/
def findallGroup1 (r : Rx) (text : String) : List String :=
  (rxFinditer r text.toList).map (fun m => match m.2 with | some c => (⟨c⟩ : String) | none => "")

/-- `re.search(...).group(1)`. -/
def searchGroup1 (r : Rx) (text : String) : Option String :=
  (rxSearch r text.toList).map (fun m => match m.2 with | some c => (⟨c⟩ : String) | none => "")

/-! ## Entity extraction (`analysis.py`, `extract_entities`, lines 109-182) -/

/-- Terminator `(?:,|\sand\s|\n)` of the first two party patterns. -/
def partyTerm : Rx :=
  rxAlts [rxChar ',', .cat (.cls isPySpace) (.cat (rxStrCI "and") (.cls isPySpace)),
    rxChar '\n']

/-- `between\s+(.*?)(?:,|\sand\s|\n)` with IGNORECASE and DOTALL. -/
def partyPat1 : Rx :=
  .cat (rxStrCI "between") (.cat rxWsPlus (.cat (.grp rxAnyLazy) partyTerm))

/-- `by and between\s+(.*?)(?:,|\sand\s|\n)`. -/
def partyPat2 : Rx :=
  .cat (rxStrCI "by and between") (.cat rxWsPlus (.cat (.grp rxAnyLazy) partyTerm))

/-- `party\s+of\s+the\s+first\s+part\s+(.*?)(?:,|\n)`. -/
def partyPat3 : Rx :=
  .cat (rxStrCI "party") (.cat rxWsPlus
    (.cat (rxStrCI "of") (.cat rxWsPlus
      (.cat (rxStrCI "the") (.cat rxWsPlus
        (.cat (rxStrCI "first") (.cat rxWsPlus
          (.cat (rxStrCI "part") (.cat rxWsPlus
            (.cat (.grp rxAnyLazy) (rxAlts [rxChar ',', rxChar '\n'])))))))))))

def party_patterns : List Rx := [partyPat1, partyPat2, partyPat3]

/-- The party loop: for each pattern in order, for each match in order,
strip the capture and append it when non-empty, fresh, and short. -/
def extractParties (text : String) : List String :=
  party_patterns.foldl (fun parties pat =>
    (rxFinditer pat text.toList).foldl (fun parties m =>
      match m.2 with
      | some capChars =>
        let name := pyStrip ⟨capChars⟩
        if name ≠ "" ∧ !(parties.contains name) ∧ name.length < 200 then parties ++ [name]
        else parties
      | none => parties) parties) []

/-- `(?:INR|Rs\.?|Rupees)\s*[\.:]?\s*[0-9,]+(?:\.[0-9]{1,2})?` with
IGNORECASE. -/
def amountPat : Rx :=
  .cat (rxAlts [rxStrCI "INR", .cat (rxStrCI "Rs") (rxOpt (rxChar '.')), rxStrCI "Rupees"])
    (.cat rxWsStar
      (.cat (rxOpt (.cls (fun c => c = '.' || c = ':')))
        (.cat rxWsStar
          (.cat (.rep (.cls (fun c => c.isDigit || c = ',')) 1 none true)
            (rxOpt (.cat (rxChar '.') (.rep rxDigit 1 (some 2) true)))))))

/-- `\b\d{1,2}[\/\-]\d{1,2}[\/\-]\d{2,4}\b`. -/
def datePat1 : Rx :=
  .cat .wb (.cat (.rep rxDigit 1 (some 2) true)
    (.cat (.cls (fun c => c = '/' || c = '-'))
      (.cat (.rep rxDigit 1 (some 2) true)
        (.cat (.cls (fun c => c = '/' || c = '-'))
          (.cat (.rep rxDigit 2 (some 4) true) .wb)))))

def monthAlt : Rx :=
  rxAlts ([ "January", "February", "March", "April", "May", "June", "July",
    "August", "September", "October", "November", "December" ].map rxStrCI)

/-- `\b\d{1,2}\s+(January|...|December)\s+\d{4}\b` with IGNORECASE; the
month name is the single capturing group, so `re.findall` returns only the
month names (a quirk preserved from the source). -/
def datePat2 : Rx :=
  .cat .wb (.cat (.rep rxDigit 1 (some 2) true)
    (.cat rxWsPlus (.cat (.grp monthAlt)
      (.cat rxWsPlus (.cat (.rep rxDigit 4 (some 4) true) .wb)))))

/-- `laws of\s+([A-Za-z\s]+)` with IGNORECASE. -/
def jurisdictionPat : Rx :=
  .cat (rxStrCI "laws of") (.cat rxWsPlus
    (.grp (.rep (.cls (fun c => (('A' ≤ c && c ≤ 'Z') || ('a' ≤ c && c ≤ 'z')) || isPySpace c))
      1 none true)))

/-- `term\s+of\s+this\s+agreement\s+shall\s+be\s+([A-Za-z0-9\s]+?)(?:\.|\n)`. -/
def durationPat : Rx :=
  .cat (rxStrCI "term") (.cat rxWsPlus
    (.cat (rxStrCI "of") (.cat rxWsPlus
      (.cat (rxStrCI "this") (.cat rxWsPlus
        (.cat (rxStrCI "agreement") (.cat rxWsPlus
          (.cat (rxStrCI "shall") (.cat rxWsPlus
            (.cat (rxStrCI "be") (.cat rxWsPlus
              (.cat (.grp (.rep (.cls (fun c =>
                  (('A' ≤ c && c ≤ 'Z') || ('a' ≤ c && c ≤ 'z') || c.isDigit) || isPySpace c))
                1 none false))
                (rxAlts [rxChar '.', rxChar '\n'])))))))))))))

/-- `intellectual property|ip rights|copyright|trademark|patent`. -/
def ipPat : Rx :=
  rxAlts [rxStrCI "intellectual property", rxStrCI "ip rights", rxStrCI "copyright",
    rxStrCI "trademark", rxStrCI "patent"]

/-! ## Termination-condition extraction (`nlp_utils.py`, lines 92-105) -/

/-- `days?\s+notice` tail shared by the first termination pattern. -/
def termPat1 : Rx :=
  .cat (rxStrCI "terminat") (.cat (.alt (rxStrCI "e") (rxStrCI "ion"))
    (.cat rxWsPlus (rxAlts [
      .cat (rxStrCI "for") (.cat rxWsPlus (rxStrCI "cause")),
      .cat (rxStrCI "without") (.cat rxWsPlus (rxStrCI "cause")),
      .cat (rxStrCI "for") (.cat rxWsPlus (rxStrCI "convenience")),
      .cat (rxStrCI "upon") (.cat rxWsPlus
        (.cat (.rep rxDigit 1 none true) (.cat rxWsPlus
          (.cat (rxStrCI "day") (.cat (rxOpt (rxCharCI 's'))
            (.cat rxWsPlus (rxStrCI "notice")))))))])))

/-- `(\d+)\s+days?\s+(?:prior\s+)?written\s+notice`. -/
def termPat2 : Rx :=
  .cat (.grp (.rep rxDigit 1 none true)) (.cat rxWsPlus
    (.cat (rxStrCI "day") (.cat (rxOpt (rxCharCI 's'))
      (.cat rxWsPlus (.cat (rxOpt (.cat (rxStrCI "prior") rxWsPlus))
        (.cat (rxStrCI "written") (.cat rxWsPlus (rxStrCI "notice"))))))))

/-- `material\s+breach(?:\s+and\s+(?:failure\s+to\s+)?cure)?`. -/
def termPat3 : Rx :=
  .cat (rxStrCI "material") (.cat rxWsPlus
    (.cat (rxStrCI "breach") (rxOpt (.cat rxWsPlus
      (.cat (rxStrCI "and") (.cat rxWsPlus
        (.cat (rxOpt (.cat (rxStrCI "failure")
          (.cat rxWsPlus (.cat (rxStrCI "to") rxWsPlus))))
          (rxStrCI "cure"))))))))

/-- `either\s+party\s+may\s+terminate`. -/
def termPat4 : Rx :=
  .cat (rxStrCI "either") (.cat rxWsPlus
    (.cat (rxStrCI "party") (.cat rxWsPlus
      (.cat (rxStrCI "may") (.cat rxWsPlus (rxStrCI "terminate"))))))

/-- `list(dict.fromkeys(found))`: deduplicate keeping first occurrences. -/
def dedupeKeepFirst (l : List String) : List String :=
  l.foldl (fun acc s => if acc.contains s then acc else acc ++ [s]) []

/-- `extract_termination_conditions(text)` of `nlp_utils.py`. -/
def extract_termination_conditions (text : String) : List String :=
  let lower := strLower text
  let found := [termPat1, termPat2, termPat3, termPat4].foldl (fun acc p =>
    acc ++ (rxFinditer p lower.toList).map (fun m => pyStrip ⟨m.1⟩)) []
  (dedupeKeepFirst found).take 10

structure DatesAndDuration where
  dates_raw : List String
  duration_text : Option String
deriving DecidableEq, Repr

structure Financials where
  amounts_mentions : List String
deriving DecidableEq, Repr

structure EntityFlags where
  confidentiality_clause_present : Bool
  ip_clause_present : Bool
deriving DecidableEq, Repr

structure EntityBundle where
  parties : List String
  dates_and_duration : DatesAndDuration
  financials : Financials
  jurisdiction_or_governing_law : Option String
  termination_conditions : List String
  flags : EntityFlags
deriving DecidableEq, Repr

/-- `extract_entities(text)` of `analysis.py`. -/
def extract_entities (text : String) : EntityBundle :=
  { parties := extractParties text,
    dates_and_duration :=
      { dates_raw := findallFull datePat1 text ++ findallGroup1 datePat2 text,
        duration_text := (searchGroup1 durationPat text).map pyStrip },
    financials := { amounts_mentions := findallFull amountPat text },
    jurisdiction_or_governing_law := (searchGroup1 jurisdictionPat text).map pyStrip,
    termination_conditions := extract_termination_conditions text,
    flags :=
      { confidentiality_clause_present := (rxSearch (rxStrCI "confidential") text.toList).isSome,
        ip_clause_present := (rxSearch ipPat text.toList).isSome } }

/-! ## Ambiguity detection (`nlp_utils.py`, `detect_ambiguity`, lines 66-89) -/

/-- `\b(reasonable|appropriate|timely|as soon as practicable|forthwith)\s+(time|period|notice|manner)\b`. -/
def ambigPat1 : Rx :=
  .cat .wb (.cat (.grp (rxAlts [rxStrCI "reasonable", rxStrCI "appropriate",
      rxStrCI "timely", rxStrCI "as soon as practicable", rxStrCI "forthwith"]))
    (.cat rxWsPlus (.cat (.grp (rxAlts [rxStrCI "time", rxStrCI "period",
      rxStrCI "notice", rxStrCI "manner"])) .wb)))

/-- `\b(reasonable|best)\s+efforts?\b`. -/
def ambigPat2 : Rx :=
  .cat .wb (.cat (.grp (rxAlts [rxStrCI "reasonable", rxStrCI "best"]))
    (.cat rxWsPlus (.cat (rxStrCI "effort") (.cat (rxOpt (rxCharCI 's')) .wb))))

/-- `\b(material|substantial|significant)\s+(breach|default|change|delay)\b`. -/
def ambigPat3 : Rx :=
  .cat .wb (.cat (.grp (rxAlts [rxStrCI "material", rxStrCI "substantial",
      rxStrCI "significant"]))
    (.cat rxWsPlus (.cat (.grp (rxAlts [rxStrCI "breach", rxStrCI "default",
      rxStrCI "change", rxStrCI "delay"])) .wb)))

/-- `\b(it|this|that|such)\s+(shall|will|may)\b`. -/
def ambigPat6 : Rx :=
  .cat .wb (.cat (.grp (rxAlts [rxStrCI "it", rxStrCI "this", rxStrCI "that",
      rxStrCI "such"]))
    (.cat rxWsPlus (.cat (.grp (rxAlts [rxStrCI "shall", rxStrCI "will",
      rxStrCI "may"])) .wb)))

def ambigReason1 : String :=
  "Vague time or standard; " ++ apos ++ "reasonable" ++ apos ++ " or " ++ apos ++
    "appropriate" ++ apos ++ " may be interpreted differently."

def ambigReason2 : String :=
  "Obligation level unclear; " ++ apos ++ "reasonable efforts" ++ apos ++ " vs " ++ apos ++
    "best efforts" ++ apos ++ " have different legal weight."

def ambigReason3 : String :=
  "Threshold not defined; " ++ apos ++ "material" ++ apos ++ " or " ++ apos ++
    "substantial" ++ apos ++ " is subjective without a definition."

def ambigReason4 : String :=
  "Scope may be broader than expected; list is non-exhaustive."

def ambigReason5 : String :=
  "Ambiguous whether one or both apply; can cause dispute."

def ambigReason6 : String :=
  "Reference may be unclear; which obligation is referred to?"

/-- `detect_ambiguity(text)` of `nlp_utils.py`: the six fixed pattern
families applied to the lower-cased text, capped at 15 findings. -/
def detect_ambiguity (text : String) : List (String × String) :=
  let lower := strLower text
  (((rxFinditer ambigPat1 lower.toList).map (fun m => ((⟨m.1⟩ : String), ambigReason1)) ++
    (rxFinditer ambigPat2 lower.toList).map (fun m => ((⟨m.1⟩ : String), ambigReason2)) ++
    (rxFinditer ambigPat3 lower.toList).map (fun m => ((⟨m.1⟩ : String), ambigReason3)) ++
    (if strContains lower "including but not limited to" ||
        strContains lower "including without limitation" then
      [("including but not limited to / including without limitation", ambigReason4)]
    else []) ++
    (if strContains lower "and/or" then [("and/or", ambigReason5)] else []) ++
    (if (rxSearch ambigPat6 lower.toList).isSome then
      [("it/this/that + shall/will/may", ambigReason6)]
    else [])).take 15)

/-! ## Translator collaborator (`llm_client.py`,
`normalize_hindi_to_english`, lines 42-63)

The network calls `_call_anthropic` / `_call_openai` are external
collaborators: the presence of each API key and each call's result are
passed as explicit parameters (`none` models an exception or missing
content; `some ""` models falsy empty content). -/

def normalize_hindi_to_english (anthropicKey openaiKey : Bool)
    (anthropicResp openaiResp : Option String) (text : String) : String :=
  if text = "" ∨ pyStrip text = "" then text
  else if anthropicKey ∧ (anthropicResp.getD "") ≠ "" then anthropicResp.getD ""
  else if openaiKey ∧ (openaiResp.getD "") ≠ "" then openaiResp.getD ""
  else text

/-- `normalize_language` of `analysis.py` (lines 27-33); the translation
collaborator is passed as an explicit function. -/
def normalize_language (translator : String → String) (text : String)
    (language : Option String) : String :=
  if text = "" ∨ pyStrip text = "" then text
  else if strLower (pyStrip (language.getD "")) = "hindi" then translator text
  else text

/-! ## Contract type classifier (`analysis.py`, `detect_contract_type`,
lines 36-51) -/

def detect_contract_type (text : String) : String × String :=
  let lower := strLower text
  if ["non-disclosure", "confidentiality agreement", "nondisclosure", "nda"].any
      (fun k => strContains lower k) then
    ("NDA / Confidentiality Agreement",
      "Mentions non-disclosure / confidentiality obligations typical of NDAs.")
  else if ["employment", "employee", "employer", "salary", "ctc"].any
      (fun k => strContains lower k) then
    ("Employment Agreement",
      "Contains terms about employment, employer-employee relationship or salary.")
  else if ["lease", "rental", "rent", "licence to use premises"].any
      (fun k => strContains lower k) then
    ("Lease / Rental Agreement", "Refers to lease or rental of premises/property.")
  else if ["partner", "partnership deed", "profit sharing"].any
      (fun k => strContains lower k) then
    ("Partnership Deed", "Talks about partners and profit sharing like a partnership.")
  else if ["supplier", "purchase order", "supply of goods", "buyer", "vendor"].any
      (fun k => strContains lower k) then
    ("Vendor / Supplier Contract", "Talks about supply of goods, vendors or purchase orders.")
  else if ["services", "service provider", "consultant", "consultancy", "agency"].any
      (fun k => strContains lower k) then
    ("Service Agreement", "Describes one party providing services to another.")
  else
    ("Mixed / Hybrid Contract",
      "No single dominant type detected; appears to mix multiple elements.")

/-! ## Result assembly (`analysis.py`, `analyze_contract`, lines 352-568)

The result record has the ten sections of the source dict; the wall clock
reading (`datetime.utcnow().isoformat()`) is an explicit parameter. -/

structure ContractTypeOverview where
  contract_type : String
  explanation : String
deriving DecidableEq, Repr

structure StructuredJson where
  clauses : List Clause
deriving DecidableEq, Repr

structure ClauseExplanation where
  clause_number : Nat
  heading : String
  intent : String
  business_impact : String
  text_preview : String
  template_matches : List TemplateMatch
deriving DecidableEq, Repr

structure RiskFlagEntry where
  clause_number : Nat
  heading : String
  risk_level : RiskLevel
  flags : List String
  justification : String
deriving DecidableEq, Repr

structure ClauseRiskRow where
  clause_number : Nat
  heading : String
  risk_level : RiskLevel
  flags : List String
deriving DecidableEq, Repr

structure FairnessEntry where
  clause_number : Nat
  heading : String
  one_sided_or_risky_for_sme : Bool
  flags : List String
deriving DecidableEq, Repr

structure AmbiguityFlag where
  phrase : String
  reason : String
deriving DecidableEq, Repr

structure RiskAnalysisSection where
  clause_risk_table : List ClauseRiskRow
  fairness_and_sme_flags : List FairnessEntry
  ambiguity_flags : List AmbiguityFlag
deriving DecidableEq, Repr

structure RenegotiationEntry where
  clause_number : Nat
  heading : String
  risk_level : RiskLevel
  suggested_change : String
  why_it_helps : String
deriving DecidableEq, Repr

structure RiskScoreSummary where
  composite_risk_score_0_to_100 : Int
  interpretation : String
deriving DecidableEq, Repr

structure ExecutiveSummary where
  overview : String
  key_obligations_to_note : List String
  biggest_risks_in_simple_terms : List String
  what_to_negotiate_before_signing : List String
deriving DecidableEq, Repr

structure BestPractices where
  recommendations : List String
  clauses_to_add_or_strengthen : List String
deriving DecidableEq, Repr

structure AuditMeta where
  jurisdiction_scope : String
  business_role_input : Option String
deriving DecidableEq, Repr

structure AuditLog where
  timestamp_utc : String
  actions : List String
  risk_flags_summary : List FairnessEntry
  meta : AuditMeta
deriving DecidableEq, Repr

structure AnalysisResult where
  contract_type_and_overview : ContractTypeOverview
  structured_clause_extraction_json : StructuredJson
  entity_and_attribute_extraction : EntityBundle
  clause_by_clause_explanation_table : List ClauseExplanation
  risk_analysis_and_flags : RiskAnalysisSection
  renegotiation_suggestions : List RenegotiationEntry
  contract_risk_score_summary : RiskScoreSummary
  executive_business_summary : ExecutiveSummary
  sme_template_and_best_practices : BestPractices
  audit_log : AuditLog
deriving DecidableEq, Repr

def riskJustificationText : String :=
  "Heuristic India-SME oriented scoring based on presence of lock-in, indemnity, liability, IP, non-compete, penalties and unilateral rights."

def whyItHelpsText : String :=
  "Reduces one-sided exposure and aligns with commonly negotiated positions for Indian SMEs."

/-- One iteration of the clause loop (STEP 4 and 5): explanation entry. -/
def clauseExplanationOf (c : Clause) : ClauseExplanation :=
  { clause_number := c.clause_number,
    heading := c.heading,
    intent := classify_clause_intent (clauseFullText c.heading c.body),
    business_impact := business_impact
      (classify_clause_intent (clauseFullText c.heading c.body))
      (clauseFullText c.heading c.body),
    text_preview := ⟨(clauseFullText c.heading c.body).toList.take 500⟩,
    template_matches := clause_similarity_to_templates c.heading c.body }

/-- One iteration of the clause loop (STEP 4 and 5): risk-flag entry. -/
def riskFlagEntryOf (c : Clause) : RiskFlagEntry :=
  { clause_number := c.clause_number,
    heading := c.heading,
    risk_level := (clause_risk_level (clauseFullText c.heading c.body)
      (classify_clause_intent (clauseFullText c.heading c.body))).1,
    flags := (clause_risk_level (clauseFullText c.heading c.body)
      (classify_clause_intent (clauseFullText c.heading c.body))).2,
    justification := riskJustificationText }

def riskFlagsOf (clauses : List Clause) : List RiskFlagEntry :=
  clauses.map riskFlagEntryOf

/-- The renegotiation branch of the STEP 6 loop: only MEDIUM or HIGH
clauses, and only when the flag lookup yields a suggestion. -/
def renegEntryOf (rf : RiskFlagEntry) : Option RenegotiationEntry :=
  if [RiskLevel.MEDIUM, RiskLevel.HIGH].contains rf.risk_level then
    match renegotiation_suggestion_for_clause rf.flags "" with
    | some suggestion =>
      some
        { clause_number := rf.clause_number, heading := rf.heading,
          risk_level := rf.risk_level, suggested_change := suggestion,
          why_it_helps := whyItHelpsText }
    | none => none
  else none

def renegotiationsOf (risk_flags : List RiskFlagEntry) : List RenegotiationEntry :=
  risk_flags.filterMap renegEntryOf

/-- The fairness branch of the STEP 6 loop: any clause with flags. -/
def fairnessEntryOf (rf : RiskFlagEntry) : Option FairnessEntry :=
  if rf.flags.isEmpty then none
  else
    some
      { clause_number := rf.clause_number, heading := rf.heading,
        one_sided_or_risky_for_sme := true, flags := rf.flags }

def fairnessFlagsOf (risk_flags : List RiskFlagEntry) : List FairnessEntry :=
  risk_flags.filterMap fairnessEntryOf

def auditActions : List String :=
  [ "received_input", "normalized_language", "classified_contract_type",
    "parsed_structure", "extracted_entities", "ambiguity_detection",
    "clause_template_matching", "classified_clause_intents", "assigned_clause_risks",
    "generated_renegotiation_suggestions", "computed_contract_level_risk_score",
    "generated_executive_summary", "compiled_best_practices" ]

/-- `analyze_contract(contract_text, language, business_role)` of
`analysis.py`; `translator` is the collaborator called for Hindi input and
`clockIso` the `datetime.utcnow().isoformat()` reading. -/
def analyze_contract (translator : String → String) (contract_text : String)
    (language : Option String) (business_role : Option String)
    (clockIso : String) : AnalysisResult :=
  let normalized := normalize_language translator contract_text language
  let ct := detect_contract_type normalized
  let clauses := split_into_clauses normalized
  let risk_flags := riskFlagsOf clauses
  let renegotiations := renegotiationsOf risk_flags
  let fairness_flags := fairnessFlagsOf risk_flags
  let composite_score := contract_level_risk_score (risk_flags.map (fun rf => rf.risk_level))
  let biggest_risk_clauses := (risk_flags.filter
      (fun rf => rf.risk_level == RiskLevel.HIGH)).mergeSort
    (fun a b => decide (a.clause_number ≤ b.clause_number))
  let clause_explanations := clauses.map clauseExplanationOf
  { contract_type_and_overview := { contract_type := ct.1, explanation := ct.2 },
    structured_clause_extraction_json :=
      ⟨clauses.map (fun c => ⟨c.clause_number, c.heading, c.body, c.sub_clauses⟩)⟩,
    entity_and_attribute_extraction := extract_entities normalized,
    clause_by_clause_explanation_table := clause_explanations,
    risk_analysis_and_flags :=
      { clause_risk_table := risk_flags.map (fun rf =>
          { clause_number := rf.clause_number, heading := rf.heading,
            risk_level := rf.risk_level, flags := rf.flags }),
        fairness_and_sme_flags := fairness_flags,
        ambiguity_flags := (detect_ambiguity normalized).map
          (fun pr => { phrase := pr.1, reason := pr.2 }) },
    renegotiation_suggestions := renegotiations,
    contract_risk_score_summary :=
      { composite_risk_score_0_to_100 := composite_score,
        interpretation := risk_interpretation composite_score },
    executive_business_summary :=
      { overview := "This appears to be a " ++ ct.1 ++
          " drafted in an Indian business context. The analysis focuses on commercial balance, lock-ins, indemnity, IP, termination, and other points that matter to SMEs, without using any specific legal statutes.",
        key_obligations_to_note := ((clause_explanations.filter (fun c =>
          ["OBLIGATION", "PROHIBITION"].contains c.intent)).map (fun c =>
            "Clause " ++ toString c.clause_number ++ " (" ++ apos ++ c.heading ++ apos ++
              ") defines obligations or important actions.")).take 10,
        biggest_risks_in_simple_terms := biggest_risk_clauses.map (fun rf =>
          "Clause " ++ toString rf.clause_number ++ " (" ++ apos ++ rf.heading ++ apos ++
            ") has high risk indicators: " ++
            (if rf.flags.isEmpty then "general exposure"
             else String.intercalate ", " rf.flags) ++ "."),
        what_to_negotiate_before_signing :=
          (renegotiations.map (fun r => r.suggested_change)).take 10 },
    sme_template_and_best_practices :=
      { recommendations :=
          [ "Ensure mutual termination rights with reasonable notice (for example, 30 days) instead of strict lock-ins.",
            "Cap total liability to a multiple of the annual contract value, with limited exceptions.",
            "Avoid very broad IP assignments; prefer assignment of project-specific deliverables and retention of tools and background IP.",
            "Tighten any non-compete or exclusivity clauses to specific customers, products, or territories and limit duration.",
            "Replace heavy penalties with realistic service credits or capped liquidated damages.",
            "Clearly document payment terms, late payment interest, and milestone acceptance in simple language." ],
        clauses_to_add_or_strengthen :=
          [ "Mutual limitation of liability with a clear cap.",
            "Mutual confidentiality obligations with reasonable exclusions.",
            "Mutual termination for convenience and for material breach with cure period.",
            "Dispute resolution clause with Indian governing law and a practical city jurisdiction." ] },
    audit_log :=
      { timestamp_utc := clockIso ++ "Z",
        actions := auditActions,
        risk_flags_summary := fairness_flags,
        meta :=
          { jurisdiction_scope := "India (generic contractual practice, no statutes)",
            business_role_input := business_role } } }

/-! ## Language normalization (C9) -/

/-- Modelled from the spec wording "tagged non-English": a language tag
which, trimmed and lower-cased, is neither empty nor "english". -/
def taggedNonEnglish (language : Option String) : Bool :=
  !(strLower (pyStrip (language.getD "")) = "" ||
    strLower (pyStrip (language.getD "")) = "english")

/-! ## Theorems -/

theorem rmax_HIGH (a : RiskLevel) : rmax a .HIGH = .HIGH := by cases a <;> rfl

theorem stepLockIn_eq (lower : String) (st : RiskLevel × List String) :
    stepLockIn lower st =
      applyRule lower st ⟨condLockIn, fun _ => .HIGH, "lock_in_or_non_cancellable"⟩ := by
  unfold stepLockIn applyRule
  cases h : condLockIn lower <;> simp [h, rmax_HIGH]

theorem stepIndemnity_eq (lower : String) (st : RiskLevel × List String) :
    stepIndemnity lower st =
      applyRule lower st
        ⟨condIndemnity, fun l => if condIndemnityUnlimited l then .HIGH else .MEDIUM,
          "indemnity"⟩ := by
  unfold stepIndemnity applyRule
  cases h : condIndemnity lower <;> cases h2 : condIndemnityUnlimited lower <;>
    simp [h, h2, rmax_HIGH]

theorem stepUnlimitedLiability_eq (lower : String) (st : RiskLevel × List String) :
    stepUnlimitedLiability lower st =
      applyRule lower st ⟨condUnlimitedLiability, fun _ => .HIGH, "unlimited_liability"⟩ := by
  unfold stepUnlimitedLiability applyRule
  cases h : condUnlimitedLiability lower <;> simp [h, rmax_HIGH]

theorem rmax_LOW (a : RiskLevel) : rmax a .LOW = a := by cases a <;> rfl

theorem stepLimitationOfLiability_eq (lower : String) (st : RiskLevel × List String) :
    stepLimitationOfLiability lower st =
      applyRule lower st
        ⟨condLimitationOfLiability, fun _ => .LOW, "limitation_of_liability"⟩ := by
  unfold stepLimitationOfLiability applyRule
  cases h : condLimitationOfLiability lower <;> simp [h, rmax_LOW]

theorem stepLateInterest_eq (lower : String) (st : RiskLevel × List String) :
    stepLateInterest lower st =
      applyRule lower st ⟨condLateInterest, fun _ => .LOW, "late_payment_interest"⟩ := by
  unfold stepLateInterest applyRule
  cases h : condLateInterest lower <;> simp [h, rmax_LOW]

theorem stepConfidentiality_eq (lower : String) (st : RiskLevel × List String) :
    stepConfidentiality lower st =
      applyRule lower st ⟨condConfidentiality, fun _ => .LOW, "confidentiality"⟩ := by
  unfold stepConfidentiality applyRule
  cases h : condConfidentiality lower <;> simp [h, rmax_LOW]

/-- The sequential source transcription coincides with the fold of the rule
list in source order. -/
theorem clause_risk_level_eq_evalRiskRules (text intent : String) :
    clause_risk_level text intent = evalRiskRules riskRules text intent := by
  unfold clause_risk_level evalRiskRules riskRules
  simp only [List.foldl_cons, List.foldl_nil]
  rw [stepLockIn_eq, stepIndemnity_eq, stepUnlimitedLiability_eq,
    stepLimitationOfLiability_eq, stepLateInterest_eq, stepConfidentiality_eq]
  rfl

theorem foldl_applyRule_fst (lower : String) (rules : List RiskRule)
    (st : RiskLevel × List String) :
    (rules.foldl (applyRule lower) st).1 =
      (firedTargets lower rules).foldl rmax st.1 := by
  induction rules generalizing st with
  | nil => rfl
  | cons r rest ih =>
      simp only [List.foldl_cons, firedTargets, List.filterMap_cons]
      cases h : r.cond lower with
      | false => simpa [applyRule, h, firedTargets] using ih st
      | true => simpa [applyRule, h, firedTargets] using ih (rmax st.1 (r.target lower), st.2 ++ [r.flag])

theorem rmax_right_comm (b x y : RiskLevel) :
    rmax (rmax b x) y = rmax (rmax b y) x := by
  cases b <;> cases x <;> cases y <;> decide

theorem foldl_rmax_perm {l₁ l₂ : List RiskLevel} (h : l₁.Perm l₂) (b : RiskLevel) :
    l₁.foldl rmax b = l₂.foldl rmax b := by
  induction h generalizing b with
  | nil => rfl
  | cons x _ ih => simp only [List.foldl_cons]; exact ih _
  | swap x y l => simp only [List.foldl_cons]; rw [rmax_right_comm]
  | trans _ _ ih₁ ih₂ => rw [ih₁, ih₂]

theorem rmax_le_left (a b : RiskLevel) : a.idx ≤ (rmax a b).idx := by
  cases a <;> cases b <;> decide

/-- A single rule application never lowers the risk ordinal. -/
theorem applyRule_mono (lower : String) (st : RiskLevel × List String) (r : RiskRule) :
    st.1.idx ≤ (applyRule lower st r).1.idx := by
  unfold applyRule
  cases h : r.cond lower <;> simp [h, rmax_le_left]

/-- The prohibition bump only reads the level component, and never lowers it. -/
theorem prohibitionBump_fst (intent : String) (st st' : RiskLevel × List String)
    (h : st.1 = st'.1) : (prohibitionBump intent st).1 = (prohibitionBump intent st').1 := by
  unfold prohibitionBump
  rw [h]
  cases hb : (["PROHIBITION"].contains intent) && st'.1 == RiskLevel.LOW <;> simp [hb, h]

/-- C2: every escalating trigger rule of the clause risk classifier only
raises the risk ordinal (`new = rmax current target`), no rule lowers a
previously set level, and consequently the final risk level returned by
`clause_risk_level` is unchanged when the trigger rules are evaluated in any
other order (only the flag insertion order depends on rule order). -/
theorem clause_risk_level_rule_order_irrelevant (rules : List RiskRule)
    (hperm : rules.Perm riskRules) (text intent : String) :
    (evalRiskRules rules text intent).1 = (clause_risk_level text intent).1 ∧
      (∀ (lower : String) (st : RiskLevel × List String) (r : RiskRule),
        st.1.idx ≤ (applyRule lower st r).1.idx) := by
  refine ⟨?_, applyRule_mono⟩
  rw [clause_risk_level_eq_evalRiskRules]
  unfold evalRiskRules
  apply prohibitionBump_fst
  rw [foldl_applyRule_fst, foldl_applyRule_fst]
  exact foldl_rmax_perm (hperm.filterMap _) _

/-- Witness for C2 at a concrete clause: evaluating the rules in reverse
order yields the same HIGH level as the source order. -/
theorem clause_risk_level_rule_order_irrelevant_witness :
    (evalRiskRules riskRules.reverse
        "Either party may terminate. This is a lock-in period." "RIGHT").1 =
      (clause_risk_level
        "Either party may terminate. This is a lock-in period." "RIGHT").1 ∧
      (∀ (lower : String) (st : RiskLevel × List String) (r : RiskRule),
        st.1.idx ≤ (applyRule lower st r).1.idx) :=
  clause_risk_level_rule_order_irrelevant riskRules.reverse
    (List.reverse_perm riskRules) _ _

/-! ## Elevated risk implies a flag or a prohibition (C10) -/

theorem foldl_applyRule_flags (lower : String) (rules : List RiskRule)
    (st : RiskLevel × List String) :
    st.2.length ≤ (rules.foldl (applyRule lower) st).2.length ∧
      ((rules.foldl (applyRule lower) st).1 ≠ st.1 →
        st.2.length < (rules.foldl (applyRule lower) st).2.length) := by
  induction rules generalizing st with
  | nil => exact ⟨le_refl _, fun h => absurd rfl h⟩
  | cons r rest ih =>
      simp only [List.foldl_cons]
      unfold applyRule
      cases h : r.cond lower with
      | false => simpa [h] using ih st
      | true =>
          simp only [if_pos rfl]
          have := ih (rmax st.1 (r.target lower), st.2 ++ [r.flag])
          constructor
          · calc st.2.length ≤ (st.2 ++ [r.flag]).length := by simp
              _ ≤ _ := this.1
          · intro _
            calc st.2.length < (st.2 ++ [r.flag]).length := by simp
              _ ≤ _ := this.1

/-- C10: whenever `clause_risk_level` reports a level above LOW, either the
flag list is non-empty or the intent is PROHIBITION: the end-of-rules
prohibition bump is the only escalation that adds no flag. -/
theorem clause_risk_level_elevated_implies_flag_or_prohibition (text intent : String)
    (h : (clause_risk_level text intent).1 ≠ RiskLevel.LOW) :
    (clause_risk_level text intent).2 ≠ [] ∨ intent = "PROHIBITION" := by
  rw [clause_risk_level_eq_evalRiskRules] at *
  unfold evalRiskRules prohibitionBump at *
  cases hb : (["PROHIBITION"].contains intent) &&
      (riskRules.foldl (applyRule (strLower text)) (RiskLevel.LOW, [])).1 == RiskLevel.LOW with
  | true =>
      right
      have h1 := ((Bool.and_eq_true _ _).mp hb).1
      simpa [List.contains_cons, eq_comm, beq_iff_eq] using h1
  | false =>
      left
      rw [hb] at h
      simp only [Bool.false_eq_true, if_false] at h ⊢
      have hfl := foldl_applyRule_flags (strLower text) riskRules (RiskLevel.LOW, [])
      have hlen := hfl.2 h
      simp only [List.length_nil] at hlen
      intro hnil
      rw [hnil] at hlen
      simp at hlen

/-- Witness for C10 at a concrete clause: an indemnity clause is MEDIUM with
a non-empty flag list. -/
theorem clause_risk_level_elevated_witness :
    (clause_risk_level "indemnity" "RIGHT").1 ≠ RiskLevel.LOW ∧
      ((clause_risk_level "indemnity" "RIGHT").2 ≠ [] ∨ "RIGHT" = "PROHIBITION") :=
  ⟨by decide, clause_risk_level_elevated_implies_flag_or_prohibition "indemnity" "RIGHT"
    (by decide)⟩

theorem headingsOk_append {l : List RawClause} {x : RawClause}
    (hl : headingsOk l) (hx : l ≠ [] → topLevelMatch x.heading = true) :
    headingsOk (l ++ [x]) := by
  intro c hc
  cases l with
  | nil => simp at hc
  | cons a as =>
      simp only [List.cons_append, List.drop_succ_cons, List.drop_zero] at hc ⊢
      rcases List.mem_append.mp hc with h | h
      · exact hl c (by simpa using h)
      · rcases List.mem_singleton.mp h with rfl
        exact hx (by simp)

theorem stInv_flushCurrent {st : SplitState} (h : StInv st) :
    headingsOk (flushCurrent st).clauses := by
  unfold flushCurrent
  cases hc : st.current with
  | none => exact h.2.1
  | some c => exact headingsOk_append h.2.1 (fun hne => h.2.2 c hne hc)

theorem stInv_processLine {st : SplitState} (h : StInv st) (line : String) :
    StInv (processLine st line) := by
  unfold processLine
  by_cases hb : pyStrip line = ""
  · simpa [hb] using h
  · simp only [if_neg hb]
    by_cases hsub : (subLevelMatch (pyStrip line) && st.current.isSome) = true
    · simp only [if_pos hsub]
      refine ⟨fun hc => h.1 hc, h.2.1, fun c hne hc => h.2.2 c hne hc⟩
    · simp only [if_neg hsub]
      by_cases htop : topLevelMatch (pyStrip line) = true
      · simp only [if_pos htop]
        refine ⟨fun hc => by simp at hc, stInv_flushCurrent h, ?_⟩
        intro c _ hc
        injection hc with hc
        subst hc
        exact htop
      · simp only [if_neg htop]
        cases hcur : st.current with
        | none =>
            have hcl : st.clauses = [] := h.1 hcur
            refine ⟨fun hc => by simp at hc, h.2.1, ?_⟩
            intro c hne _
            exact absurd hcl hne
        | some c =>
            cases hse : st.current_subs.isEmpty with
            | true =>
                simp only [if_pos rfl]
                refine ⟨fun hc => by simp at hc, h.2.1, ?_⟩
                intro d hne hd
                injection hd with hd
                subst hd
                exact h.2.2 c hne hcur
            | false =>
                simp only [Bool.false_eq_true, if_false]
                refine ⟨fun hc => by simp at hc, h.2.1, ?_⟩
                intro d hne hd
                injection hd with hd
                subst hd
                exact h.2.2 c hne hcur

theorem stInv_foldl (lines : List String) (st : SplitState) (h : StInv st) :
    StInv (lines.foldl processLine st) := by
  induction lines generalizing st with
  | nil => exact h
  | cons l rest ih => exact ih _ (stInv_processLine h l)

theorem assignNumbers_map_num (n : Nat) (l : List RawClause) :
    (assignNumbers n l).map (fun c => c.clause_number) = List.range' n l.length := by
  induction l generalizing n with
  | nil => rfl
  | cons c rest ih => simp [assignNumbers, List.range'_succ, ih]

theorem assignNumbers_heading_mem (m : Nat) (l : List RawClause) :
    ∀ c ∈ assignNumbers m l, ∃ r ∈ l, c.heading = r.heading := by
  induction l generalizing m with
  | nil => intro c hc; simp [assignNumbers] at hc
  | cons r rest ih =>
      intro c hc
      rcases hc with _ | ⟨_, hc⟩
      · exact ⟨r, by simp, rfl⟩
      · rcases ih (m + 1) c hc with ⟨r', hr', he⟩
        exact ⟨r', by simp [hr'], he⟩

theorem topLevelMatch_Preamble : topLevelMatch "Preamble" = false := by decide

theorem assignNumbers_preamble (n : Nat) (l : List RawClause) (hl : headingsOk l) :
    ∀ c ∈ assignNumbers n l, c.heading = "Preamble" → c.clause_number = n := by
  cases l with
  | nil => intro c hc; simp [assignNumbers] at hc
  | cons r rest =>
      intro c hc hp
      rcases hc with _ | ⟨_, hc⟩
      · rfl
      · rcases assignNumbers_heading_mem (n + 1) rest c hc with ⟨r', hr', he⟩
        have := hl r' (by simpa using hr')
        rw [← he, hp, topLevelMatch_Preamble] at this
        cases this

/-- C5: the structured clause list carries clause numbers exactly `1..N` in
output order, and any clause whose heading is the synthesized "Preamble"
heading is clause 1 and unique (the heading "Preamble" itself never matches
the top-level heading pattern, so it can only arise from the synthesis
branch, which fires only before anything has been flushed). -/
theorem split_into_clauses_invariants (text : String) :
    (split_into_clauses text).map (fun c => c.clause_number) =
      List.range' 1 (split_into_clauses text).length ∧
    (∀ c ∈ split_into_clauses text, c.heading = "Preamble" → c.clause_number = 1) ∧
    (∀ c₁ ∈ split_into_clauses text, ∀ c₂ ∈ split_into_clauses text,
      c₁.heading = "Preamble" → c₂.heading = "Preamble" → c₁ = c₂) := by
  have hinv : StInv (((pySplitlines text).map pyRstrip).foldl processLine ⟨[], none, []⟩) :=
    stInv_foldl _ _ ⟨fun _ => rfl, by intro c hc; simp at hc, by intro c hne _; simp at hne⟩
  have hok : headingsOk
      (flushCurrent (((pySplitlines text).map pyRstrip).foldl processLine ⟨[], none, []⟩)).clauses :=
    stInv_flushCurrent hinv
  unfold split_into_clauses
  generalize hl : (flushCurrent (((pySplitlines text).map pyRstrip).foldl processLine
    ⟨[], none, []⟩)).clauses = l at hok
  have hmap := assignNumbers_map_num 1 l
  have hlen : (assignNumbers 1 l).length = l.length := by
    have := congrArg List.length hmap
    simpa using this
  refine ⟨by rw [hmap, hlen], assignNumbers_preamble 1 l hok, ?_⟩
  intro c₁ h₁ c₂ h₂ hp₁ hp₂
  have hnodup : ((assignNumbers 1 l).map (fun c => c.clause_number)).Nodup := by
    rw [hmap]; exact List.nodup_range' 1 l.length
  exact List.inj_on_of_nodup_map hnodup h₁ h₂
    (by rw [assignNumbers_preamble 1 l hok c₁ h₁ hp₁, assignNumbers_preamble 1 l hok c₂ h₂ hp₂])

/-- Witness for C5 at a concrete document with a preamble line before the
first heading. -/
theorem split_into_clauses_invariants_witness :
    ((split_into_clauses "intro text\n1. Scope\nDetails.").map (fun c => c.clause_number) =
      List.range' 1 (split_into_clauses "intro text\n1. Scope\nDetails.").length) ∧
    (Clause.mk 1 "Preamble" "intro text" []).clause_number = 1 :=
  ⟨(split_into_clauses_invariants "intro text\n1. Scope\nDetails.").1,
   (split_into_clauses_invariants "intro text\n1. Scope\nDetails.").2.1
     ⟨1, "Preamble", "intro text", []⟩ (by decide) rfl⟩

/-- C3: the pipeline input of the scenario yields exactly two clauses;
clause 2 carries the `lock_in_or_non_cancellable` flag with risk HIGH (the
unilateral-termination rule also fires, adding its flag but not lowering
the level); clause 1 has intent OBLIGATION and risk LOW. -/
theorem c3_scenario :
    split_into_clauses c3Input =
      [⟨1, "1. Payment Terms", "The Client shall pay within 30 days.", []⟩,
       ⟨2, "2. Termination", c3Body2, []⟩] ∧
    classify_clause_intent
        (clauseFullText "1. Payment Terms" "The Client shall pay within 30 days.") =
      "OBLIGATION" ∧
    clause_risk_level
        (clauseFullText "1. Payment Terms" "The Client shall pay within 30 days.")
        "OBLIGATION" =
      (RiskLevel.LOW, []) ∧
    clause_risk_level (clauseFullText "2. Termination" c3Body2)
        (classify_clause_intent (clauseFullText "2. Termination" c3Body2)) =
      (RiskLevel.HIGH, ["lock_in_or_non_cancellable", "unilateral_termination"]) := by
  refine ⟨by decide, by decide, by decide, by decide⟩

/-- `log2F fuel n` computes the binary logarithm whenever the fuel covers
the recursion depth: `2 ^ log2F fuel n ≤ n < 2 ^ (log2F fuel n + 1)`. -/
theorem log2F_bounds : ∀ fuel n : ℕ, n ≤ fuel → 1 ≤ n →
    2 ^ log2F fuel n ≤ n ∧ n < 2 ^ (log2F fuel n + 1) := by
  intro fuel
  induction fuel with
  | zero => intro n h1 h2; omega
  | succ f ih =>
      intro n h1 h2
      by_cases h : 2 ≤ n
      · obtain ⟨ha, hb⟩ := ih (n / 2) (by omega) (by omega)
        simp only [log2F, if_pos h]
        constructor
        · calc 2 ^ (log2F f (n / 2) + 1) = 2 * 2 ^ log2F f (n / 2) := by ring
            _ ≤ 2 * (n / 2) := by omega
            _ ≤ n := by omega
        · calc n < 2 * (n / 2 + 1) := by omega
            _ ≤ 2 * 2 ^ (log2F f (n / 2) + 1) := by omega
            _ = 2 ^ (log2F f (n / 2) + 1 + 1) := by ring
      · have hn1 : n = 1 := by omega
        subst hn1
        norm_num [log2F]

theorem nlog2_bounds {n : ℕ} (h : 1 ≤ n) :
    2 ^ nlog2 n ≤ n ∧ n < 2 ^ (nlog2 n + 1) :=
  log2F_bounds n n le_rfl h

/-- `6 * n` lies two or three binades above `n`. -/
theorem nlog2_six_mul {n : ℕ} (h : 1 ≤ n) :
    nlog2 (6 * n) = nlog2 n + 2 ∨ nlog2 (6 * n) = nlog2 n + 3 := by
  obtain ⟨h1, h2⟩ := nlog2_bounds h
  obtain ⟨h3, h4⟩ := nlog2_bounds (show 1 ≤ 6 * n by omega)
  have hA : 1 ≤ 2 ^ nlog2 n := Nat.one_le_two_pow
  have hub : nlog2 (6 * n) < nlog2 n + 4 := by
    by_contra hc
    push_neg at hc
    have hstep : 2 ^ (nlog2 n + 4) ≤ 2 ^ nlog2 (6 * n) :=
      Nat.pow_le_pow_right (by norm_num) hc
    have hx : 2 ^ (nlog2 n + 4) = 16 * 2 ^ nlog2 n := by ring
    have hy : 2 ^ (nlog2 n + 1) = 2 * 2 ^ nlog2 n := by ring
    omega
  have hlb : nlog2 n + 2 ≤ nlog2 (6 * n) := by
    by_contra hc
    push_neg at hc
    have hstep : 2 ^ (nlog2 (6 * n) + 1) ≤ 2 ^ (nlog2 n + 2) :=
      Nat.pow_le_pow_right (by norm_num) (by omega)
    have hx : 2 ^ (nlog2 n + 2) = 4 * 2 ^ nlog2 n := by ring
    omega
  omega

/-- `n / n` rounds to the float 1.0 (significand `2^52`, exponent -52). -/
theorem fDivNat_self {n : ℕ} (h : 1 ≤ n) : fDivNat n n = ⟨2 ^ 52, -52⟩ := by
  have he : fDivExp n n = -52 := by
    unfold fDivExp
    rw [sub_self]
    rw [if_pos (show pow2Le n 0 n = true by simp [pow2Le])]
    norm_num
  have hm : fDivMant n n (-52) = 2 ^ 52 := by
    unfold fDivMant
    rw [if_neg (by norm_num : ¬ (0 : ℤ) ≤ -52), if_neg (by norm_num : ¬ (0 : ℤ) ≤ -52)]
    rw [show ((-(-52 : ℤ)).toNat) = 52 from rfl]
    unfold rneDiv
    have hmod : n * 2 ^ 52 % n = 0 := Nat.mul_mod_right n _
    have hdiv : n * 2 ^ 52 / n = 2 ^ 52 := Nat.mul_div_cancel_left _ (by omega)
    rw [hmod, hdiv]
    rw [if_pos (show 2 * 0 < n by omega)]
  unfold fDivNat
  rw [if_neg (show ¬ n = 0 by omega), he, hm]
  unfold fNorm
  rw [if_neg (by norm_num : ¬ (2 ^ 52 : ℕ) = 2 ^ 53)]

/-- `(6 * n) / n` rounds to the float 6.0 (significand `6 * 2^50`,
exponent -50), for every positive `n`. -/
theorem fDivNat_six_mul {n : ℕ} (h : 1 ≤ n) :
    fDivNat (6 * n) n = ⟨6 * 2 ^ 50, -50⟩ := by
  have he : fDivExp (6 * n) n = -50 := by
    unfold fDivExp
    rcases nlog2_six_mul h with hL | hL
    · rw [hL]
      rw [show ((nlog2 n + 2 : ℕ) : ℤ) - (nlog2 n : ℤ) = 2 by push_cast; ring]
      rw [if_pos (show pow2Le n 2 (6 * n) = true by
        unfold pow2Le
        rw [if_pos (by norm_num : (0 : ℤ) ≤ 2)]
        rw [show ((2 : ℤ)).toNat = 2 from rfl]
        rw [decide_eq_true_eq]
        rw [show (2 : ℕ) ^ 2 = 4 from rfl]
        omega)]
      norm_num
    · rw [hL]
      rw [show ((nlog2 n + 3 : ℕ) : ℤ) - (nlog2 n : ℤ) = 3 by push_cast; ring]
      rw [if_neg (show ¬ pow2Le n 3 (6 * n) = true by
        unfold pow2Le
        rw [if_pos (by norm_num : (0 : ℤ) ≤ 3)]
        rw [show ((3 : ℤ)).toNat = 3 from rfl]
        rw [decide_eq_true_eq]
        rw [show (2 : ℕ) ^ 3 = 8 from rfl]
        omega)]
      norm_num
  have hm : fDivMant (6 * n) n (-50) = 6 * 2 ^ 50 := by
    unfold fDivMant
    rw [if_neg (by norm_num : ¬ (0 : ℤ) ≤ -50), if_neg (by norm_num : ¬ (0 : ℤ) ≤ -50)]
    rw [show ((-(-50 : ℤ)).toNat) = 50 from rfl]
    rw [show 6 * n * 2 ^ 50 = n * (6 * 2 ^ 50) by ring]
    unfold rneDiv
    have hmod : n * (6 * 2 ^ 50) % n = 0 := Nat.mul_mod_right n _
    have hdiv : n * (6 * 2 ^ 50) / n = 6 * 2 ^ 50 := Nat.mul_div_cancel_left _ (by omega)
    rw [hmod, hdiv]
    rw [if_pos (show 2 * 0 < n by omega)]
  unfold fDivNat
  rw [if_neg (show ¬ 6 * n = 0 by omega), he, hm]
  unfold fNorm
  rw [if_neg (by norm_num : ¬ (6 * 2 ^ 50 : ℕ) = 2 ^ 53)]

/-- Any all-LOW clause list yields the float
`(1.0 / 6.0) * 100 = 16.66…` (one binary64 value for every length). -/
theorem scoreFloat_all_LOW {n : ℕ} (hn : 0 < n) :
    scoreFloat (List.replicate n RiskLevel.LOW) = ⟨4691249611844266, -48⟩ := by
  have hsum : ((List.replicate n RiskLevel.LOW).map riskWeightN).sum = n := by
    rw [List.map_replicate, List.sum_replicate, smul_eq_mul]
    rw [show riskWeightN RiskLevel.LOW = 1 from rfl, Nat.mul_one]
  have hlen : (List.replicate n RiskLevel.LOW).length = n := by simp
  unfold scoreFloat
  rw [hsum, hlen, fDivNat_self hn]
  decide

/-- Any all-HIGH clause list yields the float `(6.0 / 6.0) * 100 = 100.0`. -/
theorem scoreFloat_all_HIGH {n : ℕ} (hn : 0 < n) :
    scoreFloat (List.replicate n RiskLevel.HIGH) = ⟨7036874417766400, -46⟩ := by
  have hsum : ((List.replicate n RiskLevel.HIGH).map riskWeightN).sum = 6 * n := by
    rw [List.map_replicate, List.sum_replicate, smul_eq_mul]
    rw [show riskWeightN RiskLevel.HIGH = 6 from rfl, Nat.mul_comm]
  have hlen : (List.replicate n RiskLevel.HIGH).length = n := by simp
  unfold scoreFloat
  rw [hsum, hlen, fDivNat_six_mul hn]
  decide

theorem score_all_LOW {n : ℕ} (hn : 0 < n) :
    contract_level_risk_score (List.replicate n RiskLevel.LOW) = 16 := by
  unfold contract_level_risk_score
  rw [if_neg (show ¬ (List.replicate n RiskLevel.LOW).isEmpty = true by
        simp [List.isEmpty_iff, List.replicate_eq_nil_iff]
        omega)]
  rw [scoreFloat_all_LOW hn]
  decide

theorem score_all_HIGH {n : ℕ} (hn : 0 < n) :
    contract_level_risk_score (List.replicate n RiskLevel.HIGH) = 100 := by
  unfold contract_level_risk_score
  rw [if_neg (show ¬ (List.replicate n RiskLevel.HIGH).isEmpty = true by
        simp [List.isEmpty_iff, List.replicate_eq_nil_iff]
        omega)]
  rw [scoreFloat_all_HIGH hn]
  decide

theorem Fl.toRat_nonneg (x : Fl) : 0 ≤ x.toRat := by
  unfold Fl.toRat
  positivity

/-- The exact float-int comparison of the model agrees with the rational
value of the float. -/
theorem flLeNat_iff (x : Fl) (k : ℕ) : flLeNat x k = true ↔ x.toRat ≤ (k : ℚ) := by
  unfold flLeNat Fl.toRat
  by_cases he : (0 : ℤ) ≤ x.e
  · rw [if_pos he, decide_eq_true_eq]
    have hcast : (x.m : ℚ) * (2 : ℚ) ^ x.e = ((x.m * 2 ^ x.e.toNat : ℕ) : ℚ) := by
      conv_lhs => rw [← Int.toNat_of_nonneg he]
      rw [zpow_natCast]
      push_cast
      ring
    rw [hcast, Nat.cast_le]
  · rw [if_neg he, decide_eq_true_eq]
    have h2pos : (0 : ℚ) < (2 : ℚ) ^ ((-x.e).toNat : ℕ) := by positivity
    have h2 : (2 : ℚ) ^ x.e = ((2 : ℚ) ^ ((-x.e).toNat : ℕ))⁻¹ := by
      rw [← zpow_natCast (2 : ℚ) ((-x.e).toNat), ← zpow_neg]
      congr 1
      omega
    rw [h2, ← div_eq_mul_inv, div_le_iff₀ h2pos]
    rw [show (k : ℚ) * (2 : ℚ) ^ ((-x.e).toNat : ℕ) =
        ((k * 2 ^ (-x.e).toNat : ℕ) : ℚ) by push_cast; ring]
    rw [Nat.cast_le]

/-- `int()` truncation of a non-negative float is its floor. -/
theorem flFloor_eq (x : Fl) : (flFloor x : ℤ) = Int.floor x.toRat := by
  unfold flFloor Fl.toRat
  by_cases he : (0 : ℤ) ≤ x.e
  · rw [if_pos he]
    have hcast : (x.m : ℚ) * (2 : ℚ) ^ x.e = ((x.m * 2 ^ x.e.toNat : ℕ) : ℚ) := by
      conv_lhs => rw [← Int.toNat_of_nonneg he]
      rw [zpow_natCast]
      push_cast
      ring
    rw [hcast, Int.floor_natCast]
  · rw [if_neg he]
    have h2 : (2 : ℚ) ^ x.e = ((2 : ℚ) ^ ((-x.e).toNat : ℕ))⁻¹ := by
      rw [← zpow_natCast (2 : ℚ) ((-x.e).toNat), ← zpow_neg]
      congr 1
      omega
    rw [h2, ← div_eq_mul_inv]
    rw [show (2 : ℚ) ^ ((-x.e).toNat : ℕ) = ((2 ^ (-x.e).toNat : ℕ) : ℚ) by push_cast; ring]
    rw [← Int.natCast_floor_eq_floor (by positivity), Nat.floor_div_eq_div]

/-- `int(min(100, max(0, s)))` for the non-negative float `s`:
100 when `s > 100`, else the floor of `s`. -/
theorem score_eq_min_floor {risks : List RiskLevel} (h : risks ≠ []) :
    contract_level_risk_score risks = min 100 (Int.floor (scoreFloat risks).toRat) := by
  unfold contract_level_risk_score
  rw [if_neg (by simpa [List.isEmpty_iff] using h)]
  by_cases hle : flLeNat (scoreFloat risks) 100 = true
  · rw [if_pos hle]
    have hQ : (scoreFloat risks).toRat ≤ (100 : ℚ) := by
      have := (flLeNat_iff (scoreFloat risks) 100).mp hle
      simpa using this
    have hfl : Int.floor (scoreFloat risks).toRat ≤ 100 := by
      simpa using Int.floor_le_floor hQ
    rw [flFloor_eq]
    omega
  · rw [if_neg hle]
    have hgt : (100 : ℚ) < (scoreFloat risks).toRat := by
      by_contra hc
      push_neg at hc
      exact hle ((flLeNat_iff (scoreFloat risks) 100).mpr (by simpa using hc))
    have hfl : (100 : ℤ) ≤ Int.floor (scoreFloat risks).toRat := by
      rw [Int.le_floor]
      push_cast
      linarith
    omega

/-- C1 (corrected): the composite risk score of `analysis.py` is
`int(min(100, max(0, s)))` where `s` is the IEEE-754 binary64 value of
`(total / n / 6.0) * 100`: the empty clause list scores 0; for a non-empty
list the float is non-negative (so the `max` is the identity) and the score
is `min 100 ⌊s⌋`; the float rounding is observable: 9 MEDIUM + 1 HIGH
clauses score 54 although the exact integer formula `(100·33)/(6·10)`
gives 55; every all-LOW document scores 16 ("Safe", not 0), every all-HIGH
document scores 100 ("High risk"); the interpretation bands are
score ≤ 30 "Safe", ≤ 60 "Needs review", else "High risk". -/
theorem contract_level_risk_score_spec :
    contract_level_risk_score [] = 0 ∧
    (∀ risks : List RiskLevel, risks ≠ [] →
      0 ≤ (scoreFloat risks).toRat ∧
      contract_level_risk_score risks = min 100 (Int.floor (scoreFloat risks).toRat)) ∧
    contract_level_risk_score (List.replicate 9 RiskLevel.MEDIUM ++ [RiskLevel.HIGH]) = 54 ∧
    ((100 * ((List.replicate 9 RiskLevel.MEDIUM ++ [RiskLevel.HIGH]).map riskWeightN).sum) /
        (6 * (List.replicate 9 RiskLevel.MEDIUM ++ [RiskLevel.HIGH]).length) : ℕ) = 55 ∧
    (∀ n : ℕ, 0 < n →
      contract_level_risk_score (List.replicate n RiskLevel.LOW) = 16 ∧
      risk_interpretation
        (contract_level_risk_score (List.replicate n RiskLevel.LOW)) = "Safe") ∧
    (∀ n : ℕ, 0 < n →
      contract_level_risk_score (List.replicate n RiskLevel.HIGH) = 100 ∧
      risk_interpretation
        (contract_level_risk_score (List.replicate n RiskLevel.HIGH)) = "High risk") ∧
    (∀ s : ℤ, (s ≤ 30 → risk_interpretation s = "Safe") ∧
      (30 < s → s ≤ 60 → risk_interpretation s = "Needs review") ∧
      (60 < s → risk_interpretation s = "High risk")) := by
  refine ⟨rfl, ?_, by decide, by decide, ?_, ?_, ?_⟩
  · intro risks hne
    exact ⟨Fl.toRat_nonneg _, score_eq_min_floor hne⟩
  · intro n hn
    have h16 := score_all_LOW hn
    exact ⟨h16, by rw [h16]; rfl⟩
  · intro n hn
    have h100 := score_all_HIGH hn
    exact ⟨h100, by rw [h100]; rfl⟩
  · intro s
    refine ⟨fun h => by simp [risk_interpretation, h], fun h1 h2 => ?_, fun h => ?_⟩
    · rw [risk_interpretation, if_neg (by omega), if_pos h2]
    · rw [risk_interpretation, if_neg (by omega), if_neg (by omega)]

/-- Witness for C1 at concrete inputs. -/
theorem contract_level_risk_score_spec_witness :
    (0 ≤ (scoreFloat [RiskLevel.HIGH, RiskLevel.LOW]).toRat ∧
      contract_level_risk_score [RiskLevel.HIGH, RiskLevel.LOW] =
        min 100 (Int.floor (scoreFloat [RiskLevel.HIGH, RiskLevel.LOW]).toRat)) ∧
    contract_level_risk_score (List.replicate 2 RiskLevel.LOW) = 16 ∧
    contract_level_risk_score (List.replicate 3 RiskLevel.HIGH) = 100 ∧
    risk_interpretation 45 = "Needs review" :=
  ⟨contract_level_risk_score_spec.2.1 [RiskLevel.HIGH, RiskLevel.LOW] (by decide),
   (contract_level_risk_score_spec.2.2.2.2.1 2 (by decide)).1,
   (contract_level_risk_score_spec.2.2.2.2.2.1 3 (by decide)).1,
   (contract_level_risk_score_spec.2.2.2.2.2.2 45).2.1 (by decide) (by decide)⟩

/-- C1 counterexample: a single-LOW document scores 16, not 0; and the
score is computed in binary64 floats, not exact rationals: 9 MEDIUM +
1 HIGH clauses (total 33, n = 10) score `int(54.99999999999999) = 54`,
while the integer truncation of the exact clamped value
`(33/10)/6*100 = 55` is 55. -/
theorem contract_level_risk_score_counterexample :
    (contract_level_risk_score [RiskLevel.LOW] = 16 ∧
      contract_level_risk_score [RiskLevel.LOW] ≠ 0) ∧
    contract_level_risk_score
        (List.replicate 9 RiskLevel.MEDIUM ++ [RiskLevel.HIGH]) = 54 ∧
    Int.floor (min (100 : ℚ) (max 0
        (((((List.replicate 9 RiskLevel.MEDIUM ++ [RiskLevel.HIGH]).map
                riskWeightN).sum : ℚ) /
              ((List.replicate 9 RiskLevel.MEDIUM ++ [RiskLevel.HIGH]).length : ℚ)) / 6
          * 100))) = 55 := by
  refine ⟨⟨by decide, by decide⟩, by decide, ?_⟩
  rw [show (((List.replicate 9 RiskLevel.MEDIUM ++ [RiskLevel.HIGH]).map
      riskWeightN).sum) = 33 from by decide]
  rw [show ((List.replicate 9 RiskLevel.MEDIUM ++ [RiskLevel.HIGH]).length) = 10 from by decide]
  rw [show (min (100 : ℚ) (max 0 ((((33 : ℕ) : ℚ) / ((10 : ℕ) : ℚ)) / 6 * 100))) =
      ((55 : ℤ) : ℚ) from by push_cast; norm_num]
  rw [Int.floor_intCast]

theorem round_le_round_rat {x y : ℚ} (h : x ≤ y) : round x ≤ round y := by
  rw [round_eq, round_eq]
  exact Int.floor_le_floor (by linarith)

theorem round2_bounds {q : ℚ} (h1 : 1/5 ≤ q) (h2 : q ≤ 1) :
    1/5 ≤ round2 q ∧ round2 q ≤ 1 := by
  have hlo : (20 : ℤ) ≤ round (q * 100) := by
    have := round_le_round_rat (show (20 : ℚ) ≤ q * 100 by linarith)
    simpa using this
  have hhi : round (q * 100) ≤ 100 := by
    have := round_le_round_rat (show q * 100 ≤ (100 : ℚ) by linarith)
    simpa using this
  constructor
  · rw [round2, le_div_iff₀ (by norm_num)]
    calc (1/5 : ℚ) * 100 = ((20 : ℤ) : ℚ) := by norm_num
      _ ≤ ((round (q * 100) : ℤ) : ℚ) := by exact_mod_cast hlo
  · rw [round2, div_le_one (by norm_num)]
    calc ((round (q * 100) : ℤ) : ℚ) ≤ ((100 : ℤ) : ℚ) := by exact_mod_cast hhi
      _ = 100 := by norm_num

theorem templateEntry_some {combined : String} {t : ClauseTemplate} {r : TemplateMatch}
    (h : templateEntry combined t = some r) :
    matchedKeywords combined t ≠ [] ∧ 1/5 ≤ rawScore combined t ∧
      r = ⟨t.id, t.heading, round2 (min 1 (rawScore combined t)),
        (matchedKeywords combined t).take 5⟩ := by
  unfold templateEntry at h
  by_cases he : (matchedKeywords combined t).isEmpty
  · rw [if_pos he] at h; cases h
  · rw [if_neg he] at h
    by_cases hs : 1/5 ≤ rawScore combined t
    · rw [if_pos hs] at h
      injection h with h
      exact ⟨by simpa [List.isEmpty_iff] using he, hs, h.symm⟩
    · rw [if_neg hs] at h; cases h

theorem rawScore_le_one (combined : String) (t : ClauseTemplate) :
    rawScore combined t ≤ 1 := by
  unfold rawScore
  rw [div_le_one (by positivity)]
  have h1 : (matchedKeywords combined t).length ≤ (templateKeywords t).length :=
    List.length_filter_le _ _
  have h2 : (templateKeywords t).length ≤ max (templateKeywords t).length 1 :=
    le_max_left _ _
  exact_mod_cast le_trans h1 h2

/-- C7 (amended): for every clause heading and body the matcher returns at
most 5 entries, sorted by descending score (stable sort keeps declaration
order on ties); every entry arises from one of the 10 fixed templates with
`matched` the keywords occurring as substrings of the normalized clause
text, score `round(min(1, |matched| / |keywords|), 2)` kept only when at
least 0.2; consequently every reported score lies in [0.2, 1]. -/
theorem clause_similarity_to_templates_spec (clause_heading clause_body : String) :
    (clause_similarity_to_templates clause_heading clause_body).length ≤ 5 ∧
    List.Pairwise (fun a b => b.match_score ≤ a.match_score)
      (clause_similarity_to_templates clause_heading clause_body) ∧
    (∀ r ∈ clause_similarity_to_templates clause_heading clause_body,
      (1/5 ≤ r.match_score ∧ r.match_score ≤ 1) ∧
      ∃ t ∈ STANDARD_CLAUSE_TEMPLATES,
        r = ⟨t.id, t.heading,
          round2 (min 1 (rawScore (combinedNormalized clause_heading clause_body) t)),
          (matchedKeywords (combinedNormalized clause_heading clause_body) t).take 5⟩ ∧
        matchedKeywords (combinedNormalized clause_heading clause_body) t ≠ [] ∧
        1/5 ≤ rawScore (combinedNormalized clause_heading clause_body) t) := by
  unfold clause_similarity_to_templates
  by_cases hc : combinedNormalized clause_heading clause_body = ""
  · rw [if_pos hc]
    exact ⟨by simp, by simp, by simp⟩
  · rw [if_neg hc]
    set combined := combinedNormalized clause_heading clause_body
    set results := STANDARD_CLAUSE_TEMPLATES.filterMap (templateEntry combined) with hres
    set le := fun (a b : TemplateMatch) => decide (b.match_score ≤ a.match_score) with hle
    refine ⟨List.length_take_le _ _, ?_, ?_⟩
    · have hsorted : (results.mergeSort le).Pairwise (fun a b => le a b) :=
        List.sorted_mergeSort
          (by intro a b c hab hbc; simp only [hle, decide_eq_true_eq] at *; linarith)
          (by intro a b
              simp only [hle]
              by_cases h : b.match_score ≤ a.match_score
              · simp [h]
              · simp [h]; linarith)
          results
      have := (hsorted.sublist (List.take_sublist 5 _))
      exact this.imp (by intro a b h; simpa [hle, decide_eq_true_eq] using h)
    · intro r hr
      have hr2 : r ∈ results.mergeSort le := List.mem_of_mem_take hr
      have hr3 : r ∈ results := (List.mergeSort_perm results le).mem_iff.mp hr2
      rcases List.mem_filterMap.mp hr3 with ⟨t, ht, hsome⟩
      rcases templateEntry_some hsome with ⟨hne, hsc, heq⟩
      have hbounds := round2_bounds hsc (rawScore_le_one combined t)
      have hmin : min 1 (rawScore combined t) = rawScore combined t :=
        min_eq_right (rawScore_le_one combined t)
      refine ⟨?_, t, ht, heq, hne, hsc⟩
      rw [heq]
      simp only [hmin]
      exact round2_bounds hsc (rawScore_le_one combined t)

/-- Concrete evaluation of the matcher on the heading "Determination": the
keyword "term" matches as a substring of "determination", scoring exactly
0.2 for the `term_notice` template. -/
theorem clause_similarity_determination_eval :
    clause_similarity_to_templates "Determination" "" =
      [⟨"term_notice", "Term and termination with notice", 1/5, ["term"]⟩] := by
  have hraw : rawScore "determination"
      ⟨"term_notice", "Term and termination with notice",
        "term, terminate, notice, days, renewal"⟩ = 1/5 := by
    unfold rawScore
    rw [show matchedKeywords "determination"
        ⟨"term_notice", "Term and termination with notice",
          "term, terminate, notice, days, renewal"⟩ = ["term"] from by decide]
    rw [show templateKeywords
        ⟨"term_notice", "Term and termination with notice",
          "term, terminate, notice, days, renewal"⟩ =
        ["term", "terminate", "notice", "days", "renewal"] from by decide]
    norm_num
  have hentry : templateEntry "determination"
      ⟨"term_notice", "Term and termination with notice",
        "term, terminate, notice, days, renewal"⟩ =
      some ⟨"term_notice", "Term and termination with notice", 1/5, ["term"]⟩ := by
    unfold templateEntry
    rw [if_neg (by decide), if_pos (by rw [hraw])]
    rw [hraw]
    rw [show matchedKeywords "determination"
        ⟨"term_notice", "Term and termination with notice",
          "term, terminate, notice, days, renewal"⟩ = ["term"] from by decide]
    have hmin : min (1 : ℚ) (1/5) = 1/5 := min_eq_right (by norm_num)
    rw [hmin]
    have hr2 : round2 ((1 : ℚ)/5) = 1/5 := by
      rw [round2, show ((1 : ℚ)/5 * 100) = ((20 : ℤ) : ℚ) from by norm_num, round_intCast]
      norm_num
    rw [hr2]
    rfl
  have hcomb : combinedNormalized "Determination" "" = "determination" := by decide
  unfold clause_similarity_to_templates
  rw [hcomb, if_neg (by decide)]
  rw [show STANDARD_CLAUSE_TEMPLATES.filterMap (templateEntry "determination") =
      [⟨"term_notice", "Term and termination with notice", 1/5, ["term"]⟩] from ?_]
  · simp [List.mergeSort]
  · simp only [STANDARD_CLAUSE_TEMPLATES, List.filterMap_cons, List.filterMap_nil, hentry,
      show templateEntry "determination" ⟨"limitation_liability", "Limitation of liability",
        "liability, limited, cap, exclude, indirect"⟩ = none from by decide,
      show templateEntry "determination" ⟨"confidentiality", "Confidentiality",
        "confidential, disclose, non-disclosure, information"⟩ = none from by decide,
      show templateEntry "determination" ⟨"ip_rights", "Intellectual property",
        "intellectual property, assign, license, copyright"⟩ = none from by decide,
      show templateEntry "determination" ⟨"indemnity", "Indemnity",
        "indemnify, indemnity, hold harmless, claims"⟩ = none from by decide,
      show templateEntry "determination" ⟨"payment", "Payment terms",
        "payment, fee, invoice, due, days"⟩ = none from by decide,
      show templateEntry "determination" ⟨"governing_law", "Governing law and jurisdiction",
        "governing law, jurisdiction, courts, dispute"⟩ = none from by decide,
      show templateEntry "determination" ⟨"arbitration", "Arbitration",
        "arbitration, arbitrator, arbitral"⟩ = none from by decide,
      show templateEntry "determination" ⟨"scope_services", "Scope of services / deliverables",
        "scope, services, deliverables, perform"⟩ = none from by decide,
      show templateEntry "determination" ⟨"warranty", "Warranty",
        "warranty, represent, warrant"⟩ = none from by decide]

/-- The spec-words matcher finds nothing on the heading "Determination":
no template keyword is a whole word of the clause. -/
theorem clause_similarity_spec_words_determination :
    clause_similarity_spec_words "Determination" "" = [] := by
  unfold clause_similarity_spec_words
  rw [show combinedNormalized "Determination" "" = "determination" from by decide,
    if_neg (by decide)]
  rw [show STANDARD_CLAUSE_TEMPLATES.filterMap (templateEntryWords "determination") =
      ([] : List TemplateMatch) from by decide]
  simp [List.mergeSort]

/-- C7 counterexample: on the clause heading "Determination" the source
matcher reports `term_notice` with matched keyword "term" (a substring
match), although "term" is not one of the words present in the clause, so
the matcher described by the claim (word membership) returns no match. -/
theorem clause_similarity_words_counterexample :
    clause_similarity_to_templates "Determination" "" =
      [⟨"term_notice", "Term and termination with notice", 1/5, ["term"]⟩] ∧
    clause_similarity_spec_words "Determination" "" = [] ∧
    (pySplitWs (combinedNormalized "Determination" "")).contains "term" = false :=
  ⟨clause_similarity_determination_eval, clause_similarity_spec_words_determination, by decide⟩

/-- Witness for C7: the amended theorem applied to the concrete clause
heading "Determination" and its single reported match. -/
theorem clause_similarity_to_templates_spec_witness :
    ((1/5 ≤ (TemplateMatch.mk "term_notice" "Term and termination with notice"
        (1/5) ["term"]).match_score ∧
      (TemplateMatch.mk "term_notice" "Term and termination with notice"
        (1/5) ["term"]).match_score ≤ 1) ∧
    ∃ t ∈ STANDARD_CLAUSE_TEMPLATES,
      TemplateMatch.mk "term_notice" "Term and termination with notice" (1/5) ["term"] =
        ⟨t.id, t.heading,
          round2 (min 1 (rawScore (combinedNormalized "Determination" "") t)),
          (matchedKeywords (combinedNormalized "Determination" "") t).take 5⟩ ∧
      matchedKeywords (combinedNormalized "Determination" "") t ≠ [] ∧
      1/5 ≤ rawScore (combinedNormalized "Determination" "") t) :=
  (clause_similarity_to_templates_spec "Determination" "").2.2
    ⟨"term_notice", "Term and termination with notice", 1/5, ["term"]⟩
    (by rw [clause_similarity_determination_eval]; exact List.mem_singleton.mpr rfl)

theorem filterMap_if_cons {α β : Type} (c : α → Bool) (g : α → β) (p : α) (rest : List α) :
    (p :: rest).filterMap (fun x => if c x then some (g x) else none) =
      (if c p then [g p] else []) ++
        rest.filterMap (fun x => if c x then some (g x) else none) := by
  by_cases h : c p <;> simp [h]

theorem suggestionSentences_eq_filterMap (flags : List String) :
    suggestionSentences flags =
      flagSentenceTable.filterMap
        (fun p => if flags.contains p.1 then some p.2 else none) := by
  unfold suggestionSentences flagSentenceTable
  rw [show (fun (p : String × String) => if flags.contains p.1 then some p.2 else none) =
      (fun p => if (fun q : String × String => flags.contains q.1) p then
        some ((fun q : String × String => q.2) p) else none) from rfl]
  simp only [filterMap_if_cons, List.filterMap_nil, List.append_nil, List.append_assoc]

theorem renegotiation_suggestion_some {flags : List String} {s : String}
    (h : renegotiation_suggestion_for_clause flags "" = some s) :
    flags ≠ [] ∧ suggestionSentences flags ≠ [] ∧
      s = String.intercalate " " (flagSentenceTable.filterMap
        (fun p => if flags.contains p.1 then some p.2 else none)) := by
  unfold renegotiation_suggestion_for_clause at h
  by_cases he : flags.isEmpty
  · rw [if_pos he] at h; cases h
  · rw [if_neg he] at h
    by_cases hs : (suggestionSentences flags).isEmpty
    · rw [if_pos hs] at h; cases h
    · rw [if_neg hs] at h
      injection h with h
      exact ⟨by simpa [List.isEmpty_iff] using he, by simpa [List.isEmpty_iff] using hs,
        by rw [← h, suggestionSentences_eq_filterMap]⟩

/-! ## Determinism of `analyze` (C4) -/

/-- C4 counterexample: with identical text, language, role and translator,
two invocations at different wall-clock readings return different records
(the audit-log timestamp differs), so the ten sections are not all equal
across invocations. -/
theorem analyze_contract_clock_counterexample :
    analyze_contract id "hello" none none "2024-01-01T00:00:00" ≠
      analyze_contract id "hello" none none "2024-01-02T00:00:00" := by
  intro h
  exact absurd (congrArg (fun r => r.audit_log.timestamp_utc) h) (by decide)

/-- C4 (amended): `analyze_contract` is a pure function of its inputs and
the clock reading; across two invocations with the same inputs, the first
nine sections and the audit log apart from its timestamp agree, and the
timestamp is exactly the clock reading with "Z" appended. -/
theorem analyze_contract_deterministic (translator : String → String) (text : String)
    (language business_role : Option String) (t₁ t₂ : String) :
    (analyze_contract translator text language business_role t₁).contract_type_and_overview =
      (analyze_contract translator text language business_role t₂).contract_type_and_overview ∧
    (analyze_contract translator text language business_role t₁).structured_clause_extraction_json =
      (analyze_contract translator text language business_role t₂).structured_clause_extraction_json ∧
    (analyze_contract translator text language business_role t₁).entity_and_attribute_extraction =
      (analyze_contract translator text language business_role t₂).entity_and_attribute_extraction ∧
    (analyze_contract translator text language business_role t₁).clause_by_clause_explanation_table =
      (analyze_contract translator text language business_role t₂).clause_by_clause_explanation_table ∧
    (analyze_contract translator text language business_role t₁).risk_analysis_and_flags =
      (analyze_contract translator text language business_role t₂).risk_analysis_and_flags ∧
    (analyze_contract translator text language business_role t₁).renegotiation_suggestions =
      (analyze_contract translator text language business_role t₂).renegotiation_suggestions ∧
    (analyze_contract translator text language business_role t₁).contract_risk_score_summary =
      (analyze_contract translator text language business_role t₂).contract_risk_score_summary ∧
    (analyze_contract translator text language business_role t₁).executive_business_summary =
      (analyze_contract translator text language business_role t₂).executive_business_summary ∧
    (analyze_contract translator text language business_role t₁).sme_template_and_best_practices =
      (analyze_contract translator text language business_role t₂).sme_template_and_best_practices ∧
    (analyze_contract translator text language business_role t₁).audit_log.actions =
      (analyze_contract translator text language business_role t₂).audit_log.actions ∧
    (analyze_contract translator text language business_role t₁).audit_log.risk_flags_summary =
      (analyze_contract translator text language business_role t₂).audit_log.risk_flags_summary ∧
    (analyze_contract translator text language business_role t₁).audit_log.meta =
      (analyze_contract translator text language business_role t₂).audit_log.meta ∧
    (analyze_contract translator text language business_role t₁).audit_log.timestamp_utc =
      t₁ ++ "Z" :=
  ⟨rfl, rfl, rfl, rfl, rfl, rfl, rfl, rfl, rfl, rfl, rfl, rfl, rfl⟩

/-! ## Empty input (C6) -/

/-- C6: on the empty string `analyze` returns normally (it is a total
function) with zero clauses, composite risk score 0 ("Safe"), empty
parties, dates and amounts lists, and no ambiguity findings. -/
theorem analyze_contract_empty (translator : String → String)
    (language business_role : Option String) (clockIso : String) :
    (analyze_contract translator "" language business_role
        clockIso).structured_clause_extraction_json.clauses = [] ∧
    (analyze_contract translator "" language business_role
        clockIso).contract_risk_score_summary.composite_risk_score_0_to_100 = 0 ∧
    (analyze_contract translator "" language business_role
        clockIso).contract_risk_score_summary.interpretation = "Safe" ∧
    (analyze_contract translator "" language business_role
        clockIso).entity_and_attribute_extraction.parties = [] ∧
    (analyze_contract translator "" language business_role
        clockIso).entity_and_attribute_extraction.dates_and_duration.dates_raw = [] ∧
    (analyze_contract translator "" language business_role
        clockIso).entity_and_attribute_extraction.financials.amounts_mentions = [] ∧
    (analyze_contract translator "" language business_role
        clockIso).risk_analysis_and_flags.ambiguity_flags = [] :=
  ⟨rfl, rfl, rfl, rfl, rfl, rfl, rfl⟩

/-! ## Renegotiation emission (C8) -/

/-- C8: the mapped remediation flags appear in the suggestion function in
the same relative order as in the risk classifier's rule list (the three
flag-only risk flags have no remediation sentence); and every emitted
renegotiation entry comes from a clause whose risk is MEDIUM or HIGH and
whose flag set is non-empty, with `suggested_change` the space-joined
concatenation of the sentences of its flags in that fixed order. -/
theorem renegotiation_emission_spec (translator : String → String) (text : String)
    (language business_role : Option String) (clockIso : String) :
    (flagSentenceTable.map Prod.fst =
      (riskRules.map RiskRule.flag).filter (fun f =>
        !(["limitation_of_liability", "late_payment_interest", "confidentiality"].contains f))) ∧
    ∀ e ∈ (analyze_contract translator text language business_role
        clockIso).renegotiation_suggestions,
      (e.risk_level = RiskLevel.MEDIUM ∨ e.risk_level = RiskLevel.HIGH) ∧
      ∃ rf ∈ riskFlagsOf (split_into_clauses (normalize_language translator text language)),
        e.clause_number = rf.clause_number ∧ e.heading = rf.heading ∧
        e.risk_level = rf.risk_level ∧ rf.flags ≠ [] ∧
        e.suggested_change = String.intercalate " " (flagSentenceTable.filterMap
          (fun p => if rf.flags.contains p.1 then some p.2 else none)) := by
  refine ⟨by decide, ?_⟩
  intro e he
  have he2 : e ∈ renegotiationsOf (riskFlagsOf
      (split_into_clauses (normalize_language translator text language))) := he
  rcases List.mem_filterMap.mp he2 with ⟨rf, hrf, hsome⟩
  unfold renegEntryOf at hsome
  by_cases hmem : [RiskLevel.MEDIUM, RiskLevel.HIGH].contains rf.risk_level
  · rw [if_pos hmem] at hsome
    cases hsug : renegotiation_suggestion_for_clause rf.flags "" with
    | none => rw [hsug] at hsome; cases hsome
    | some s =>
        rw [hsug] at hsome
        injection hsome with hsome
        rcases renegotiation_suggestion_some hsug with ⟨hfne, _, hs⟩
        subst hsome
        refine ⟨?_, rf, hrf, rfl, rfl, rfl, hfne, hs⟩
        have : rf.risk_level = RiskLevel.MEDIUM ∨ rf.risk_level = RiskLevel.HIGH := by
          simpa [beq_iff_eq] using hmem
        simpa using this
  · rw [if_neg hmem] at hsome
    cases hsome

/-- Witness for C8 at a concrete one-clause indemnity contract. -/
theorem renegotiation_emission_spec_witness :
    ((RenegotiationEntry.mk 1 "1. Indemnity" RiskLevel.MEDIUM sIndemnity
        whyItHelpsText).risk_level = RiskLevel.MEDIUM ∨
      (RenegotiationEntry.mk 1 "1. Indemnity" RiskLevel.MEDIUM sIndemnity
        whyItHelpsText).risk_level = RiskLevel.HIGH) ∧
    ∃ rf ∈ riskFlagsOf (split_into_clauses (normalize_language id
        "1. Indemnity\nThe Vendor shall indemnify the Client." none)),
      (RenegotiationEntry.mk 1 "1. Indemnity" RiskLevel.MEDIUM sIndemnity
        whyItHelpsText).clause_number = rf.clause_number ∧
      (RenegotiationEntry.mk 1 "1. Indemnity" RiskLevel.MEDIUM sIndemnity
        whyItHelpsText).heading = rf.heading ∧
      (RenegotiationEntry.mk 1 "1. Indemnity" RiskLevel.MEDIUM sIndemnity
        whyItHelpsText).risk_level = rf.risk_level ∧ rf.flags ≠ [] ∧
      (RenegotiationEntry.mk 1 "1. Indemnity" RiskLevel.MEDIUM sIndemnity
        whyItHelpsText).suggested_change = String.intercalate " " (flagSentenceTable.filterMap
          (fun p => if rf.flags.contains p.1 then some p.2 else none)) :=
  (renegotiation_emission_spec id "1. Indemnity\nThe Vendor shall indemnify the Client."
      none none "T").2
    ⟨1, "1. Indemnity", RiskLevel.MEDIUM, sIndemnity, whyItHelpsText⟩
    (by decide)

/-- C9 counterexample: a Spanish-tagged input is tagged non-English, but
the normalizer returns the text unchanged instead of handing it to the
translation collaborator (which here would return "TRANSLATED"). -/
theorem normalize_language_non_english_counterexample :
    taggedNonEnglish (some "spanish") = true ∧
    normalize_language (fun _ => "TRANSLATED") "hola" (some "spanish") = "hola" ∧
    ("hola" : String) ≠ "TRANSLATED" :=
  ⟨by decide, by decide, by decide⟩

/-- C9 (amended): the normalizer hands the text to the translator exactly
when the language tag, trimmed and lower-cased, equals "hindi" and the
text is non-blank; otherwise the text is returned unchanged.  The modelled
translator returns its input unchanged when no API key is configured or
when every configured call fails, and never raises (it is a total
function). -/
theorem normalize_language_spec (translator : String → String) (text : String)
    (language : Option String) :
    (¬(text = "" ∨ pyStrip text = "") →
      strLower (pyStrip (language.getD "")) = "hindi" →
      normalize_language translator text language = translator text) ∧
    (strLower (pyStrip (language.getD "")) ≠ "hindi" →
      normalize_language translator text language = text) ∧
    ((text = "" ∨ pyStrip text = "") → normalize_language translator text language = text) ∧
    (∀ aResp oResp : Option String,
      normalize_hindi_to_english false false aResp oResp text = text) ∧
    (normalize_hindi_to_english true true none none text = text) := by
  refine ⟨?_, ?_, ?_, ?_, ?_⟩
  · intro hb hh
    unfold normalize_language
    rw [if_neg hb, if_pos hh]
  · intro hh
    unfold normalize_language
    by_cases hb : text = "" ∨ pyStrip text = ""
    · rw [if_pos hb]
    · rw [if_neg hb, if_neg hh]
  · intro hb
    unfold normalize_language
    rw [if_pos hb]
  · intro aResp oResp
    unfold normalize_hindi_to_english
    by_cases hb : text = "" ∨ pyStrip text = ""
    · rw [if_pos hb]
    · rw [if_neg hb, if_neg (by simp), if_neg (by simp)]
  · unfold normalize_hindi_to_english
    by_cases hb : text = "" ∨ pyStrip text = ""
    · rw [if_pos hb]
    · rw [if_neg hb, if_neg (by simp), if_neg (by simp)]

/-- Witness for C9: a Hindi-tagged text is handed to the translator; a
Spanish-tagged text passes through unchanged. -/
theorem normalize_language_spec_witness :
    normalize_language (fun s => s ++ "!") "namaste" (some "Hindi") =
      (fun s => s ++ "!") "namaste" ∧
    normalize_language (fun s => s ++ "!") "hola" (some "spanish") = "hola" ∧
    normalize_hindi_to_english false false none none "namaste" = "namaste" :=
  ⟨(normalize_language_spec (fun s => s ++ "!") "namaste" (some "Hindi")).1
      (by decide) (by decide),
    (normalize_language_spec (fun s => s ++ "!") "hola" (some "spanish")).2.1 (by decide),
    (normalize_language_spec (fun s => s ++ "!") "namaste" none).2.2.2.1 none none⟩

end SME
